import Mathlib

/-!
# Body-language scoring (script2.js): a shallow embedding

The embedding follows `src/script2.js` function by function.

* JavaScript numbers that carry geometry (landmark coordinates, matrix entries, the video
  clock) are embedded as real numbers; NaN, infinities and signed zeros are not modelled.
  `Math.hypot`, `Math.sqrt` and `Math.atan2` have no computable counterpart over the reals,
  so the definitions that use them are `noncomputable`, and the eye-openness ratio and the
  Euler angles are computed without rounding.
* `calculateEyeZone` decides ties on the grid lines of the eye box, where rounding changes
  the answer.  Its subtractions, divisions and multiplications are therefore the IEEE 754
  binary64 operations: the exact result rounded to the nearest double, ties to even
  (`roundDouble`).  Overflow does not arise for coordinates of an image and is left out.
* The three frame counters are natural numbers; the percentages derived from them are exact
  rationals, so `updateScoreDisplay` is computable.
* Reading `landmarks[i]` past the end of the array yields `undefined` and the following
  property access throws a `TypeError`; functions that can throw this way return `Option`,
  with `none` standing for the thrown error.
* DOM, canvas and media-stream effects are outside the model and taken to succeed.
-/

namespace BodyLanguageScoring

/-! ## Data model -/

/-- One face-mesh landmark as delivered by the detector. -/
structure Landmark where
  x : ℝ
  y : ℝ
  z : ℝ

/-- The object literal built by `getEyeBounds`. -/
structure EyeBounds where
  minX : ℝ
  maxX : ℝ
  minY : ℝ
  maxY : ℝ

/-- Values of `hDir` in `calculateEyeZone`: the strings 'left', 'center', 'right'. -/
inductive HDir where
  | left
  | center
  | right
  deriving DecidableEq, Repr

/-- Values of `vDir` in `calculateEyeZone`: the strings 'up', 'center', 'down'. -/
inductive VDir where
  | up
  | center
  | down
  deriving DecidableEq, Repr

/-- The object literal returned by `calculateEyeZone`. -/
structure EyeZone where
  horizontal : HDir
  vertical : VDir

/-- The object literal returned by `detectGazeDirection`. -/
structure Gaze where
  left : EyeZone
  right : EyeZone

/-- The object literal returned by `matrixToEulerAngles`. -/
structure EulerAngles where
  pitch : ℝ
  yaw : ℝ
  roll : ℝ

/-- A facial transformation matrix of the detector: `data` holds the sixteen entries of a
4x4 transform. -/
structure TransformationMatrix where
  data : Fin 16 → ℝ

/-- What `faceLandmarker.detectForVideo` returns, restricted to the two fields the script
reads.  A field that is `undefined` is `none` (the script reads both through `?.`). -/
structure FaceLandmarkerResult where
  faceLandmarks : Option (List (List Landmark))
  facialTransformationMatrixes : Option (List TransformationMatrix)

/-! ## Constants -/

def LEFT_EYE_INDICES : List Nat := [33, 133, 159, 145]
def RIGHT_EYE_INDICES : List Nat := [362, 263, 386, 374]
def LEFT_IRIS_INDICES : List Nat := [468, 469, 470, 471]
def RIGHT_IRIS_INDICES : List Nat := [473, 474, 475, 476]
def ADAPTIVE_FRAMES : Nat := 30
def MAX_HEAD_ANGLE : ℝ := 25

/-! ## The `Math` functions the script calls, over the reals -/

/-- Source `Math.hypot(a, b)`: the square root of the sum of the squares. -/
noncomputable def Math.hypot (a b : ℝ) : ℝ := Real.sqrt (a ^ 2 + b ^ 2)

/-- Source `Math.atan2(y, x)`: the angle in `(-π, π]` of the point `(x, y)`, and `0` at
the origin. -/
noncomputable def Math.atan2 (y x : ℝ) : ℝ := Complex.arg ((x : ℂ) + (y : ℂ) * Complex.I)

/-! ## Double-precision arithmetic -/

/-- Round a real to the nearest integer, a tie going to the even neighbour. -/
noncomputable def roundHalfEven (y : ℝ) : ℤ :=
  if y - ⌊y⌋ < 1 / 2 then ⌊y⌋
  else if y - ⌊y⌋ > 1 / 2 then ⌊y⌋ + 1
  else if Even ⌊y⌋ then ⌊y⌋
  else ⌊y⌋ + 1

/-- Round a real to the nearest IEEE 754 binary64 number, ties to even.  For
`2^k ≤ |x| < 2^(k+1)` the doubles are spaced `2^(k-52)` apart (53 significant bits), and
never closer than `2^(-1074)` (subnormal numbers).  Overflow to infinity is not modelled. -/
noncomputable def roundDouble (x : ℝ) : ℝ :=
  let e : ℤ := max (Int.log 2 |x| - 52) (-1074)
  (roundHalfEven (x / (2 : ℝ) ^ e) : ℝ) * (2 : ℝ) ^ e

/-- The JavaScript operator `a - b` on doubles. -/
noncomputable def Double.sub (a b : ℝ) : ℝ := roundDouble (a - b)

/-- The JavaScript operator `a / b` on doubles. -/
noncomputable def Double.div (a b : ℝ) : ℝ := roundDouble (a / b)

/-- The JavaScript operator `a * b` on doubles. -/
noncomputable def Double.mul (a b : ℝ) : ℝ := roundDouble (a * b)

/-! ## Detection functions -/

/-- Source `calculateEAR(landmarks, eyeIndices)`: `none` when one of the first four indexed
landmarks is missing (the destructured value is `undefined` and `.x` throws). -/
noncomputable def calculateEAR (landmarks : List Landmark) (eyeIndices : List Nat) :
    Option ℝ :=
  match eyeIndices.map (fun i => landmarks[i]?) with
  | some p1 :: some p2 :: some p3 :: some p4 :: _ =>
    let horizontal := Math.hypot (p1.x - p2.x) (p1.y - p2.y)
    let vertical := Math.hypot (p3.x - p4.x) (p3.y - p4.y)
    some (vertical / (2 * horizontal + 1e-6))
  | _ => none

/-- Source `isEyeContact(landmarks)`: the mean of the two ratios exceeds `0.23`. -/
noncomputable def isEyeContact (landmarks : List Landmark) : Option Bool :=
  match calculateEAR landmarks LEFT_EYE_INDICES with
  | none => none
  | some leftEAR =>
    match calculateEAR landmarks RIGHT_EYE_INDICES with
    | none => none
    | some rightEAR =>
      let avgEAR := (leftEAR + rightEAR) / 2
      some (decide (avgEAR > 0.23))

/-- Source `getEyeBounds(landmarks, indices)`: `none` when an indexed landmark is missing.
`Math.min(...xs)` and `Math.max(...xs)` are folds over the coordinates; for an empty index
list they would be `Infinity` and `-Infinity`, which the reals do not have, so that case is
`none` too (both callers pass a fixed four-element group). -/
noncomputable def getEyeBounds (landmarks : List Landmark) (indices : List Nat) :
    Option EyeBounds :=
  match indices.mapM' (fun i => landmarks[i]?) with
  | some (p :: ps) =>
    some { minX := (ps.map Landmark.x).foldl min p.x
           maxX := (ps.map Landmark.x).foldl max p.x
           minY := (ps.map Landmark.y).foldl min p.y
           maxY := (ps.map Landmark.y).foldl max p.y }
  | _ => none

/-- Source `calculateEyeZone(iris, bounds)`: the third of the box the iris lies in, on
each axis.  Every arithmetic operation is the double-precision one; the comparisons are
exact, as they are on doubles. -/
noncomputable def calculateEyeZone (iris : Landmark) (bounds : EyeBounds) : EyeZone :=
  let xThird := Double.div (Double.sub bounds.maxX bounds.minX) 3
  let yThird := Double.div (Double.sub bounds.maxY bounds.minY) 3
  let horizontalPos := Double.sub iris.x bounds.minX
  let verticalPos := Double.sub iris.y bounds.minY
  let hDir :=
    if horizontalPos < xThird then HDir.left
    else if horizontalPos > Double.mul 2 xThird then HDir.right
    else HDir.center
  let vDir :=
    if verticalPos < yThird then VDir.up
    else if verticalPos > Double.mul 2 yThird then VDir.down
    else VDir.center
  { horizontal := hDir, vertical := vDir }

/-- Source `detectGazeDirection(landmarks)`: `none` when an eye or iris landmark is missing. -/
noncomputable def detectGazeDirection (landmarks : List Landmark) : Option Gaze :=
  match getEyeBounds landmarks LEFT_EYE_INDICES with
  | none => none
  | some leftEyeBounds =>
    match getEyeBounds landmarks RIGHT_EYE_INDICES with
    | none => none
    | some rightEyeBounds =>
      match LEFT_IRIS_INDICES.head?.bind (fun i => landmarks[i]?) with
      | none => none
      | some leftIris =>
        match RIGHT_IRIS_INDICES.head?.bind (fun i => landmarks[i]?) with
        | none => none
        | some rightIris =>
          some { left := calculateEyeZone leftIris leftEyeBounds
                 right := calculateEyeZone rightIris rightEyeBounds }

/-- Source `isDirectGaze(landmarks)`: both eyes are `center` on both axes. -/
noncomputable def isDirectGaze (landmarks : List Landmark) : Option Bool :=
  match detectGazeDirection landmarks with
  | none => none
  | some gaze =>
    some (decide (gaze.left.horizontal = HDir.center) &&
          decide (gaze.right.horizontal = HDir.center) &&
          decide (gaze.left.vertical = VDir.center) &&
          decide (gaze.right.vertical = VDir.center))

/-- Source `matrixToEulerAngles(matrix)`: pitch, yaw and roll in degrees. -/
noncomputable def matrixToEulerAngles (matrix : Fin 16 → ℝ) : EulerAngles :=
  let pitch := Math.atan2 (matrix 9) (matrix 10) * (180 / Real.pi)
  let yaw :=
    Math.atan2 (-matrix 8) (Real.sqrt (matrix 9 ^ 2 + matrix 10 ^ 2)) * (180 / Real.pi)
  let roll := Math.atan2 (matrix 4) (matrix 0) * (180 / Real.pi)
  { pitch := pitch, yaw := yaw, roll := roll }

/-- Source `isHeadPostureStable(results)`: `false` without a first matrix, otherwise all
three angles are within `MAX_HEAD_ANGLE`. -/
noncomputable def isHeadPostureStable (results : FaceLandmarkerResult) : Bool :=
  match results.facialTransformationMatrixes.bind (fun ms => ms[0]?) with
  | none => false
  | some m =>
    let matrix := m.data
    let rotation := matrixToEulerAngles matrix
    decide (|rotation.pitch| < MAX_HEAD_ANGLE) &&
    decide (|rotation.yaw| < MAX_HEAD_ANGLE) &&
    decide (|rotation.roll| < MAX_HEAD_ANGLE)

/-! ## Script state and the frame loop -/

/-- The mutable top-level variables of the script.  `faceLandmarker` records whether
`createFaceLandmarker` has finished and the variable holds a detector. -/
structure State where
  faceLandmarker : Bool
  webcamRunning : Bool
  lastVideoTime : ℝ
  eyeContactFrames : Nat
  headPostureFrames : Nat
  totalFrames : Nat
  eyeContact : Bool
  headPosture : Bool

/-- The state right after the script is loaded. -/
noncomputable def State.initial : State :=
  { faceLandmarker := false
    webcamRunning := false
    lastVideoTime := -1
    eyeContactFrames := 0
    headPostureFrames := 0
    totalFrames := 0
    eyeContact := false
    headPosture := false }

/-- The three numbers `updateScoreDisplay` computes and the three it writes to the page
(the arguments of `toFixed(1)`, after `Math.min(., 100)`). -/
structure ScoreDisplay where
  eyePercent : ℚ
  headPercent : ℚ
  overall : ℚ
  eyeContactScore : ℚ
  headPostureScore : ℚ
  overallScore : ℚ
  deriving DecidableEq, Repr

/-- Source `updateScoreDisplay()`, as a function of the three counters it reads. -/
def updateScoreDisplay (totalFrames eyeContactFrames headPostureFrames : Nat) :
    ScoreDisplay :=
  let effectiveFrames : ℚ := max ((totalFrames : ℚ) - (ADAPTIVE_FRAMES : ℚ)) 1
  let eyePercent : ℚ :=
    if totalFrames > ADAPTIVE_FRAMES then (eyeContactFrames : ℚ) / effectiveFrames * 100
    else 0
  let headPercent : ℚ :=
    if totalFrames > ADAPTIVE_FRAMES then (headPostureFrames : ℚ) / effectiveFrames * 100
    else 0
  let overall : ℚ := (eyePercent + headPercent) / 2
  { eyePercent := eyePercent
    headPercent := headPercent
    overall := overall
    eyeContactScore := min eyePercent 100
    headPostureScore := min headPercent 100
    overallScore := min overall 100 }

/-- What `updateScoreDisplay()` shows when called in state `s`. -/
def State.scores (s : State) : ScoreDisplay :=
  updateScoreDisplay s.totalFrames s.eyeContactFrames s.headPostureFrames

/-- The expression `isEyeContact(landmarks) && isDirectGaze(landmarks)` of `predictWebcam`,
with the short circuit of `&&`. -/
noncomputable def eyeContactExpr (landmarks : List Landmark) : Option Bool :=
  match isEyeContact landmarks with
  | none => none
  | some false => some false
  | some true => isDirectGaze landmarks

/-- One call of `predictWebcam()`, where `currentTime` is `video.currentTime` and `results`
is what `faceLandmarker.detectForVideo` returns if it is called.  When the eye-contact
expression throws, the call ends there: the counter and clock updates made so far stay.
The closing `updateScoreDisplay()` only writes to the page; see `State.scores`. -/
noncomputable def predictWebcam (s : State) (currentTime : ℝ)
    (results : FaceLandmarkerResult) : State :=
  if !s.webcamRunning then s
  else
    let s1 := { s with totalFrames := s.totalFrames + 1 }
    if s1.lastVideoTime ≠ currentTime then
      let s2 := { s1 with lastVideoTime := currentTime }
      match results.faceLandmarks with
      | some (landmarks :: _) =>
        if s2.totalFrames > ADAPTIVE_FRAMES then
          match eyeContactExpr landmarks with
          | none => s2
          | some eyeContact =>
            let s3 := { s2 with
              eyeContact := eyeContact
              eyeContactFrames :=
                if eyeContact then s2.eyeContactFrames + 1 else s2.eyeContactFrames }
            let headPosture := isHeadPostureStable results
            { s3 with
              headPosture := headPosture
              headPostureFrames :=
                if headPosture then s3.headPostureFrames + 1 else s3.headPostureFrames }
        else s2
      | _ => s2
    else s1

/-- One click on the webcam button: `enableCam()`. -/
def enableCam (s : State) : State :=
  if !s.faceLandmarker then s
  else if s.webcamRunning then { s with webcamRunning := false }
  else
    { s with
      webcamRunning := true
      eyeContactFrames := 0
      headPostureFrames := 0
      totalFrames := 0 }

/-- What can happen to the script: the detector finishes loading, the button is clicked,
or `predictWebcam` is called back with the video clock and the detector result. -/
inductive Event where
  | landmarkerCreated
  | click
  | frame (currentTime : ℝ) (results : FaceLandmarkerResult)

/-- The effect of one event. -/
noncomputable def step (s : State) : Event → State
  | Event.landmarkerCreated => { s with faceLandmarker := true }
  | Event.click => enableCam s
  | Event.frame currentTime results => predictWebcam s currentTime results

/-- The effect of a sequence of events. -/
noncomputable def run (s : State) (events : List Event) : State :=
  events.foldl step s

/-- A run of `predictWebcam` callbacks, given as pairs of video clock and detector result. -/
noncomputable def feed (s : State) (frames : List (ℝ × FaceLandmarkerResult)) : State :=
  frames.foldl (fun st f => predictWebcam st f.1 f.2) s

/-- The detector found a face: `results.faceLandmarks?.length > 0`. -/
def faceDetected (results : FaceLandmarkerResult) : Bool :=
  match results.faceLandmarks with
  | some (_ :: _) => true
  | _ => false


/-! ## The specification's distance, and concrete inputs -/

/-- The point of the image plane at which a landmark lies: its `x` and `y` coordinates,
in the Euclidean plane. -/
noncomputable def Landmark.toPlane (p : Landmark) : EuclideanSpace ℝ (Fin 2) :=
  ![p.x, p.y]

/-- A face mesh of 478 landmarks in which both eyes have the same geometry: the two outer
corners (33, 362) at `p1`, the inner corners (133, 263) at `p2`, the upper lids (159, 386) at
`p3`, the lower lids (145, 374) at `p4`, and every other landmark, the irises among them,
at `iris`. -/
def eyeMesh (p1 p2 p3 p4 iris : Landmark) : List Landmark :=
  (List.range 478).map fun i =>
    if i = 33 ∨ i = 362 then p1
    else if i = 133 ∨ i = 263 then p2
    else if i = 159 ∨ i = 386 then p3
    else if i = 145 ∨ i = 374 then p4
    else iris

/-- The eye geometry of the specification's eye-openness example. -/
noncomputable def narrowEyes : List Landmark :=
  eyeMesh ⟨0, 0, 0⟩ ⟨1, 0, 0⟩ ⟨0.5, 0, 0⟩ ⟨0.5, 0.1, 0⟩ ⟨0.5, 0.05, 0⟩

/-- The identity 4x4 matrix as sixteen entries: `m[0] = m[5] = m[10] = m[15] = 1`, all
other entries `0`. -/
def identityMatrix : Fin 16 → ℝ :=
  fun i => if i = 0 ∨ i = 5 ∨ i = 10 ∨ i = 15 then 1 else 0

/-- A transform that rolls the head by exactly 25 degrees: `m[0] = cos 25°`,
`m[4] = sin 25°`, `m[10] = 1`, and `0` at the other entries this script reads. -/
noncomputable def rolledMatrix : Fin 16 → ℝ :=
  fun i =>
    if i = 0 then Real.cos (25 * Real.pi / 180)
    else if i = 4 then Real.sin (25 * Real.pi / 180)
    else if i = 10 then 1
    else 0

/-- A frame that classifies as eye contact and stable posture: a face is detected, both
`isEyeContact` and `isDirectGaze` return `true` on its landmarks, and `isHeadPostureStable`
returns `true` on the result. -/
def perfectFrame (results : FaceLandmarkerResult) : Prop :=
  ∃ (landmarks : List Landmark) (rest : List (List Landmark)),
    results.faceLandmarks = some (landmarks :: rest) ∧
    isEyeContact landmarks = some true ∧
    isDirectGaze landmarks = some true ∧
    isHeadPostureStable results = true

/-- The page loaded and the detector created, before the first click. -/
noncomputable def State.ready : State :=
  { State.initial with faceLandmarker := true }

/-- A mesh with open eyes and centred irises, all coordinates being doubles: eye corners at
`(0.25, 0.4375)` and `(0.625, 0.4375)`, lids at `(0.4375, 0.25)` and `(0.4375, 0.625)`,
irises at `(0.4375, 0.4375)`. -/
noncomputable def openEyes : List Landmark :=
  eyeMesh ⟨0.25, 0.4375, 0⟩ ⟨0.625, 0.4375, 0⟩ ⟨0.4375, 0.25, 0⟩ ⟨0.4375, 0.625, 0⟩
    ⟨0.4375, 0.4375, 0⟩

/-- The double that the literal `0.1` denotes: `7205759403792794 * 2^(-56)`. -/
noncomputable def double0_1 : ℝ := 7205759403792794 / 2 ^ 56

/-- The double that the literal `0.2` denotes: `7205759403792794 * 2^(-55)`. -/
noncomputable def double0_2 : ℝ := 7205759403792794 / 2 ^ 55

/-- The double that the literal `0.4` denotes: `7205759403792794 * 2^(-54)`. -/
noncomputable def double0_4 : ℝ := 7205759403792794 / 2 ^ 54

/-- A detector result with one face looking straight at the camera. -/
noncomputable def perfectResults : FaceLandmarkerResult :=
  { faceLandmarks := some [openEyes]
    facialTransformationMatrixes := some [⟨identityMatrix⟩] }

/-- A detector result without a face. -/
def noFaceResults : FaceLandmarkerResult :=
  { faceLandmarks := some []
    facialTransformationMatrixes := some [] }

/-- A stream of `n` callbacks with video clock `0, 1, ..., n - 1`, each seeing
`perfectResults`. -/
noncomputable def perfectStream (n : Nat) : List (ℝ × FaceLandmarkerResult) :=
  (List.range' 1 n).map fun (k : Nat) => ((k : ℝ) - 1, perfectResults)

/-- A session of 35 callbacks: 34 new video frames, then one callback that finds the video
clock unchanged.  Every callback carries `perfectResults`. -/
noncomputable def dilutedSession : List (ℝ × FaceLandmarkerResult) :=
  perfectStream 34 ++ [(33, perfectResults)]

/-- The page loads, the detector is created, the webcam is switched on, and 31 callbacks
each see a new video frame with `perfectResults`. -/
noncomputable def scoredSession : List Event :=
  Event.landmarkerCreated :: Event.click ::
    (perfectStream 31).map fun f => Event.frame f.1 f.2

/-- As `scoredSession` but with 20 callbacks only: the session never leaves calibration. -/
noncomputable def shortSession : List Event :=
  Event.landmarkerCreated :: Event.click ::
    (perfectStream 20).map fun f => Event.frame f.1 f.2

/-- Events after a session start: the 35 callbacks of `dilutedSession`, a callback without
a face, a click that stops the session, a click that starts the next one, and one more
callback. -/
noncomputable def mixedSession : List Event :=
  (dilutedSession.map fun f => Event.frame f.1 f.2) ++
    [Event.frame 34 noFaceResults, Event.click, Event.click, Event.frame 35 perfectResults]

/-! ## Scores computed by `updateScoreDisplay` -/

/-- C2 (calibration scores are zero): whenever `totalFrames ≤ 30`, whatever the two other
counters hold, the eye-contact, head-posture and overall percentages computed by
`updateScoreDisplay` are exactly `0`, and so are the three values it displays. -/
theorem updateScoreDisplay_calibrating (totalFrames eyeContactFrames headPostureFrames : Nat)
    (h : totalFrames ≤ 30) :
    updateScoreDisplay totalFrames eyeContactFrames headPostureFrames =
      { eyePercent := 0, headPercent := 0, overall := 0,
        eyeContactScore := 0, headPostureScore := 0, overallScore := 0 } := by
  have h1 : ¬ (totalFrames > ADAPTIVE_FRAMES) := by unfold ADAPTIVE_FRAMES; omega
  simp [updateScoreDisplay, h1]

theorem updateScoreDisplay_calibrating_witness :
    (30 : Nat) ≤ 30 ∧
    updateScoreDisplay 30 7 9 =
      { eyePercent := 0, headPercent := 0, overall := 0,
        eyeContactScore := 0, headPostureScore := 0, overallScore := 0 } :=
  ⟨by decide, updateScoreDisplay_calibrating 30 7 9 (by decide)⟩

theorem eyePercent_nonneg (t e h : Nat) : 0 ≤ (updateScoreDisplay t e h).eyePercent := by
  simp only [updateScoreDisplay]
  split
  · positivity
  · exact le_refl _

theorem headPercent_nonneg (t e h : Nat) : 0 ≤ (updateScoreDisplay t e h).headPercent := by
  simp only [updateScoreDisplay]
  split
  · positivity
  · exact le_refl _

/-- C3 (clamp property): for all natural-number values of the three counters the three
displayed percentages lie in `[0, 100]`; and when `totalFrames > 30` and
`eyeContactFrames = effectiveFrames + 5` the displayed eye percentage is exactly `100`. -/
theorem updateScoreDisplay_clamped (totalFrames eyeContactFrames headPostureFrames : Nat) :
    (0 ≤ (updateScoreDisplay totalFrames eyeContactFrames headPostureFrames).eyeContactScore ∧
      (updateScoreDisplay totalFrames eyeContactFrames headPostureFrames).eyeContactScore
        ≤ 100) ∧
    (0 ≤ (updateScoreDisplay totalFrames eyeContactFrames headPostureFrames).headPostureScore ∧
      (updateScoreDisplay totalFrames eyeContactFrames headPostureFrames).headPostureScore
        ≤ 100) ∧
    (0 ≤ (updateScoreDisplay totalFrames eyeContactFrames headPostureFrames).overallScore ∧
      (updateScoreDisplay totalFrames eyeContactFrames headPostureFrames).overallScore
        ≤ 100) ∧
    (30 < totalFrames → eyeContactFrames = max (totalFrames - 30) 1 + 5 →
      (updateScoreDisplay totalFrames eyeContactFrames headPostureFrames).eyeContactScore
        = 100) := by
  have he := eyePercent_nonneg totalFrames eyeContactFrames headPostureFrames
  have hh := headPercent_nonneg totalFrames eyeContactFrames headPostureFrames
  refine ⟨⟨?_, ?_⟩, ⟨?_, ?_⟩, ⟨?_, ?_⟩, ?_⟩
  · exact le_min he (by norm_num)
  · exact min_le_right _ _
  · exact le_min hh (by norm_num)
  · exact min_le_right _ _
  · refine le_min ?_ (by norm_num)
    show 0 ≤ ((updateScoreDisplay totalFrames eyeContactFrames headPostureFrames).eyePercent +
      (updateScoreDisplay totalFrames eyeContactFrames headPostureFrames).headPercent) / 2
    linarith
  · exact min_le_right _ _
  · intro ht hc
    have h1 : totalFrames > ADAPTIVE_FRAMES := by unfold ADAPTIVE_FRAMES; omega
    have h2 : max (totalFrames - 30) 1 = totalFrames - 30 := by omega
    have h3 : ((totalFrames - 30 : Nat) : ℚ) = (totalFrames : ℚ) - 30 := by
      rw [Nat.cast_sub (by omega)]; norm_num
    have h4 : (0 : ℚ) < (totalFrames : ℚ) - 30 := by
      rw [← h3]; exact_mod_cast (by omega : 0 < totalFrames - 30)
    have h5 : max ((totalFrames : ℚ) - 30) 1 = (totalFrames : ℚ) - 30 := by
      apply max_eq_left
      rw [← h3]; exact_mod_cast (by omega : 1 ≤ totalFrames - 30)
    have h6 : (eyeContactFrames : ℚ) = (totalFrames : ℚ) - 30 + 5 := by
      rw [hc, h2]; push_cast; rw [h3]
    simp only [updateScoreDisplay, h1, if_true]
    apply min_eq_right
    have h7 : ((ADAPTIVE_FRAMES : Nat) : ℚ) = 30 := by simp [ADAPTIVE_FRAMES]
    rw [h7, h5, h6]
    have h8 : (1 : ℚ) ≤ ((totalFrames : ℚ) - 30 + 5) / ((totalFrames : ℚ) - 30) := by
      rw [le_div_iff₀ h4]; linarith
    linarith


theorem updateScoreDisplay_clamped_witness :
    (30 : Nat) < 40 ∧ (15 : Nat) = max (40 - 30) 1 + 5 ∧
    (updateScoreDisplay 40 15 0).eyeContactScore = 100 :=
  ⟨by decide, by decide, (updateScoreDisplay_clamped 40 15 0).2.2.2 (by decide) (by decide)⟩

/-! ## Double rounding -/

theorem roundHalfEven_of_lt (y : ℝ) (f : ℤ) (h1 : (f : ℝ) ≤ y) (h2 : y < f + 1 / 2) :
    roundHalfEven y = f := by
  have hf : ⌊y⌋ = f := Int.floor_eq_iff.2 ⟨h1, by linarith⟩
  unfold roundHalfEven
  rw [hf, if_pos (by linarith)]

theorem roundHalfEven_of_gt (y : ℝ) (f : ℤ) (h1 : (f : ℝ) + 1 / 2 < y) (h2 : y < f + 1) :
    roundHalfEven y = f + 1 := by
  have hf : ⌊y⌋ = f := Int.floor_eq_iff.2 ⟨by linarith, h2⟩
  unfold roundHalfEven
  rw [hf, if_neg (by linarith), if_pos (by linarith)]

theorem roundHalfEven_tie_odd (y : ℝ) (f : ℤ) (h : y = f + 1 / 2) (hodd : ¬ Even f) :
    roundHalfEven y = f + 1 := by
  have hf : ⌊y⌋ = f := Int.floor_eq_iff.2 ⟨by linarith, by linarith⟩
  unfold roundHalfEven
  rw [hf, if_neg (by linarith), if_neg (by linarith), if_neg hodd]

theorem roundHalfEven_ge_floor (y : ℝ) : ⌊y⌋ ≤ roundHalfEven y := by
  unfold roundHalfEven
  split_ifs <;> omega

theorem log_two_eq (r : ℝ) (k : ℤ) (h1 : (2 : ℝ) ^ k ≤ r) (h2 : r < (2 : ℝ) ^ (k + 1)) :
    Int.log 2 r = k := by
  have hr : 0 < r := lt_of_lt_of_le (by positivity) h1
  have ha : k ≤ Int.log 2 r :=
    (Int.zpow_le_iff_le_log (by norm_num) hr).1 (by exact_mod_cast h1)
  have hb : Int.log 2 r < k + 1 :=
    (Int.lt_zpow_iff_log_lt (by norm_num) hr).1 (by exact_mod_cast h2)
  omega

/-- In the binade `2^k ≤ |x| < 2^(k+1)` of a normal number, rounding is to a multiple of
`2^(k-52)`. -/
theorem roundDouble_eq (x : ℝ) (k : ℤ) (hk : -1022 ≤ k) (h1 : (2 : ℝ) ^ k ≤ |x|)
    (h2 : |x| < (2 : ℝ) ^ (k + 1)) :
    roundDouble x = (roundHalfEven (x / (2 : ℝ) ^ (k - 52)) : ℝ) * (2 : ℝ) ^ (k - 52) := by
  have hl := log_two_eq |x| k h1 h2
  have he : max (Int.log 2 |x| - 52) (-1074) = k - 52 := by rw [hl]; omega
  simp only [roundDouble, he]

/-- A multiple of `2^(k-52)` in the binade of `2^k` is a double: rounding leaves it. -/
theorem roundDouble_exact (x : ℝ) (k n : ℤ) (hk : -1022 ≤ k) (h1 : (2 : ℝ) ^ k ≤ |x|)
    (h2 : |x| < (2 : ℝ) ^ (k + 1)) (hn : x / (2 : ℝ) ^ (k - 52) = n) :
    roundDouble x = x := by
  rw [roundDouble_eq x k hk h1 h2, hn, roundHalfEven_of_lt (n : ℝ) n le_rfl (by linarith),
    ← hn]
  field_simp

theorem roundDouble_nonneg (x : ℝ) (hx : 0 ≤ x) : 0 ≤ roundDouble x := by
  unfold roundDouble
  apply mul_nonneg
  · have h0 : 0 ≤ ⌊x / (2 : ℝ) ^ (max (Int.log 2 |x| - 52) (-1074))⌋ :=
      Int.floor_nonneg.2 (div_nonneg hx (by positivity))
    exact_mod_cast le_trans h0 (roundHalfEven_ge_floor _)
  · positivity

theorem roundDouble_pos_ge (w : ℝ) (h : 0 < roundDouble w) :
    (2 : ℝ) ^ (-1074 : ℤ) ≤ roundDouble w := by
  unfold roundDouble at h ⊢
  simp only at h ⊢
  set e : ℤ := max (Int.log 2 |w| - 52) (-1074) with he
  set n : ℤ := roundHalfEven (w / (2 : ℝ) ^ e) with hn
  have hu : (0 : ℝ) < (2 : ℝ) ^ e := by positivity
  have hn0 : (0 : ℝ) < (n : ℝ) := by
    by_contra hneg
    have : (n : ℝ) * (2 : ℝ) ^ e ≤ 0 := mul_nonpos_of_nonpos_of_nonneg (not_lt.1 hneg) hu.le
    linarith
  have hn1 : (1 : ℝ) ≤ (n : ℝ) := by
    have : 0 < n := by exact_mod_cast hn0
    exact_mod_cast (by omega : 1 ≤ n)
  have hmin : (2 : ℝ) ^ (-1074 : ℤ) ≤ (2 : ℝ) ^ e :=
    zpow_le_zpow_right₀ (by norm_num) (le_max_right _ _)
  calc (2 : ℝ) ^ (-1074 : ℤ) ≤ (2 : ℝ) ^ e := hmin
    _ = 1 * (2 : ℝ) ^ e := (one_mul _).symm
    _ ≤ (n : ℝ) * (2 : ℝ) ^ e := mul_le_mul_of_nonneg_right hn1 hu.le

/-- Doubling a non-negative double and rounding does not fall below the double. -/
theorem le_roundDouble_two_mul (x : ℝ) (hx : x = 0 ∨ (2 : ℝ) ^ (-1074 : ℤ) ≤ x) :
    x ≤ roundDouble (2 * x) := by
  rcases hx with hx | hx
  · subst hx
    exact roundDouble_nonneg _ (by norm_num)
  · have hx0 : 0 < x := lt_of_lt_of_le (by positivity) hx
    have hy0 : 0 < 2 * x := by linarith
    unfold roundDouble
    simp only
    set e : ℤ := max (Int.log 2 |2 * x| - 52) (-1074) with he
    have hu : (0 : ℝ) < (2 : ℝ) ^ e := by positivity
    have hule : (2 : ℝ) ^ e ≤ 2 * x := by
      rcases max_choice (Int.log 2 |2 * x| - 52) (-1074) with hc | hc
      · have h1 : (2 : ℝ) ^ (Int.log 2 |2 * x|) ≤ |2 * x| := by
          have := Int.zpow_log_le_self (b := 2) (r := |2 * x|) (by norm_num)
            (abs_pos.2 (ne_of_gt hy0))
          exact_mod_cast this
        have h2 : (2 : ℝ) ^ e ≤ (2 : ℝ) ^ (Int.log 2 |2 * x|) :=
          zpow_le_zpow_right₀ (by norm_num) (by rw [he, hc]; omega)
        exact le_trans h2 (le_trans h1 (le_of_eq (abs_of_pos hy0)))
      · rw [he, hc]
        linarith
    have hz1 : (1 : ℝ) ≤ 2 * x / (2 : ℝ) ^ e := by
      rw [le_div_iff₀ hu]; linarith
    have hf1 : 1 ≤ ⌊2 * x / (2 : ℝ) ^ e⌋ := Int.le_floor.2 (by exact_mod_cast hz1)
    have hf2 : 2 * x / (2 : ℝ) ^ e < ⌊2 * x / (2 : ℝ) ^ e⌋ + 1 := Int.lt_floor_add_one _
    have hf3 : (⌊2 * x / (2 : ℝ) ^ e⌋ : ℝ) ≤ (roundHalfEven (2 * x / (2 : ℝ) ^ e) : ℝ) := by
      exact_mod_cast roundHalfEven_ge_floor _
    have hf4 : (1 : ℝ) ≤ (⌊2 * x / (2 : ℝ) ^ e⌋ : ℝ) := by exact_mod_cast hf1
    have hhalf : x / (2 : ℝ) ^ e ≤ (roundHalfEven (2 * x / (2 : ℝ) ^ e) : ℝ) := by
      have : 2 * x / (2 : ℝ) ^ e = 2 * (x / (2 : ℝ) ^ e) := by ring
      linarith
    calc x = x / (2 : ℝ) ^ e * (2 : ℝ) ^ e := by field_simp
      _ ≤ (roundHalfEven (2 * x / (2 : ℝ) ^ e) : ℝ) * (2 : ℝ) ^ e :=
        mul_le_mul_of_nonneg_right hhalf hu.le

/-- The computed third of a box side is a non-negative double whenever `lo ≤ hi`. -/
theorem third_double (lo hi : ℝ) (h : lo ≤ hi) :
    Double.div (Double.sub hi lo) 3 = 0 ∨
      (2 : ℝ) ^ (-1074 : ℤ) ≤ Double.div (Double.sub hi lo) 3 := by
  have h1 : 0 ≤ Double.sub hi lo := roundDouble_nonneg _ (by linarith)
  have h2 : 0 ≤ Double.div (Double.sub hi lo) 3 :=
    roundDouble_nonneg _ (div_nonneg h1 (by norm_num))
  rcases eq_or_lt_of_le h2 with h0 | h0
  · exact Or.inl h0.symm
  · exact Or.inr (roundDouble_pos_ge _ h0)

/-! ## Gaze zones -/

theorem roundDouble_values :
    roundDouble (1 / 10) = double0_1 ∧ roundDouble (2 / 10) = double0_2 ∧
    roundDouble (4 / 10) = double0_4 := by
  refine ⟨?_, ?_, ?_⟩
  · rw [roundDouble_eq _ (-4) (by norm_num) (by norm_num [abs_of_nonneg])
        (by norm_num [abs_of_nonneg]),
      roundHalfEven_of_gt _ 7205759403792793 (by norm_num) (by norm_num)]
    norm_num [double0_1]
  · rw [roundDouble_eq _ (-3) (by norm_num) (by norm_num [abs_of_nonneg])
        (by norm_num [abs_of_nonneg]),
      roundHalfEven_of_gt _ 7205759403792793 (by norm_num) (by norm_num)]
    norm_num [double0_2]
  · rw [roundDouble_eq _ (-2) (by norm_num) (by norm_num [abs_of_nonneg])
        (by norm_num [abs_of_nonneg]),
      roundHalfEven_of_gt _ 7205759403792793 (by norm_num) (by norm_num)]
    norm_num [double0_4]

theorem third_of_box_0_1_0_4 :
    Double.div (Double.sub double0_4 double0_1) 3 = 7205759403792795 / 2 ^ 56 := by
  have hsub : Double.sub double0_4 double0_1 = 5404319552844596 / 2 ^ 54 := by
    unfold Double.sub double0_4 double0_1
    rw [roundDouble_eq _ (-2) (by norm_num) (by norm_num [abs_of_nonneg])
        (by norm_num [abs_of_nonneg]),
      roundHalfEven_tie_odd _ 5404319552844595 (by norm_num) (by decide)]
    norm_num
  unfold Double.div
  rw [hsub, roundDouble_eq _ (-4) (by norm_num) (by norm_num [abs_of_nonneg])
      (by norm_num [abs_of_nonneg]),
    roundHalfEven_of_gt _ 7205759403792794 (by norm_num) (by norm_num)]
  norm_num

theorem offset_in_box_0_1_0_4 :
    Double.sub double0_2 double0_1 = 7205759403792794 / 2 ^ 56 := by
  unfold Double.sub double0_2 double0_1
  rw [roundDouble_eq _ (-4) (by norm_num) (by norm_num [abs_of_nonneg])
      (by norm_num [abs_of_nonneg]),
    roundHalfEven_of_lt _ 7205759403792794 (by norm_num) (by norm_num)]
  norm_num

/-- The double operations on the box `0.25 .. 0.625` are all exact: its side is `0.375`, a
third of it `0.125`, twice that `0.25`. -/
theorem box_quarter_arith :
    Double.div (Double.sub 0.625 0.25) 3 = 0.125 ∧
    Double.mul 2 0.125 = 0.25 ∧
    Double.sub 0.4375 0.25 = 0.1875 ∧
    Double.sub 0.375 0.25 = 0.125 ∧
    Double.sub 0.5 0.25 = 0.25 := by
  have h375 : roundDouble 0.375 = 0.375 :=
    roundDouble_exact _ (-2) 6755399441055744 (by norm_num) (by norm_num [abs_of_nonneg])
      (by norm_num [abs_of_nonneg]) (by norm_num)
  have h125 : roundDouble 0.125 = 0.125 :=
    roundDouble_exact _ (-3) 4503599627370496 (by norm_num) (by norm_num [abs_of_nonneg])
      (by norm_num [abs_of_nonneg]) (by norm_num)
  have h25 : roundDouble 0.25 = 0.25 :=
    roundDouble_exact _ (-2) 4503599627370496 (by norm_num) (by norm_num [abs_of_nonneg])
      (by norm_num [abs_of_nonneg]) (by norm_num)
  have h1875 : roundDouble 0.1875 = 0.1875 :=
    roundDouble_exact _ (-3) 6755399441055744 (by norm_num) (by norm_num [abs_of_nonneg])
      (by norm_num [abs_of_nonneg]) (by norm_num)
  have e1 : (0.625 : ℝ) - 0.25 = 0.375 := by norm_num
  have e2 : (0.375 : ℝ) / 3 = 0.125 := by norm_num
  have e3 : (2 : ℝ) * 0.125 = 0.25 := by norm_num
  have e4 : (0.4375 : ℝ) - 0.25 = 0.1875 := by norm_num
  have e5 : (0.375 : ℝ) - 0.25 = 0.125 := by norm_num
  have e6 : (0.5 : ℝ) - 0.25 = 0.25 := by norm_num
  refine ⟨?_, ?_, ?_, ?_, ?_⟩
  · unfold Double.div Double.sub
    rw [e1, h375, e2, h125]
  · unfold Double.mul
    rw [e3, h25]
  · unfold Double.sub
    rw [e4, h1875]
  · unfold Double.sub
    rw [e5, h125]
  · unfold Double.sub
    rw [e6, h25]

/-- C5, as stated, fails on the doubles the script computes with.  Take the eye box
`0.1 .. 0.4` on both axes and the iris at `(0.2, 0.2)`, each literal standing for its
double.  These three doubles satisfy `minX ≤ maxX` and, in exact arithmetic,
`iris.x = minX + (maxX - minX) / 3`: the iris lies exactly on the one-third line.  The script
computes `maxX - minX` as `0.30000000000000004`, a third of it as `0.10000000000000002`, and
`iris.x - minX` as `0.1`, which is strictly below; so `calculateEyeZone` returns `left` and
`up`, not `center`. -/
theorem calculateEyeZone_boundary_counterexample :
    (roundDouble (1 / 10) = double0_1 ∧ roundDouble (2 / 10) = double0_2 ∧
      roundDouble (4 / 10) = double0_4) ∧
    double0_1 ≤ double0_4 ∧
    double0_2 = double0_1 + (double0_4 - double0_1) / 3 ∧
    (calculateEyeZone ⟨double0_2, double0_2, 0⟩
      ⟨double0_1, double0_4, double0_1, double0_4⟩).horizontal = HDir.left ∧
    (calculateEyeZone ⟨double0_2, double0_2, 0⟩
      ⟨double0_1, double0_4, double0_1, double0_4⟩).vertical = VDir.up := by
  have hlt : Double.sub double0_2 double0_1 <
      Double.div (Double.sub double0_4 double0_1) 3 := by
    rw [third_of_box_0_1_0_4, offset_in_box_0_1_0_4]
    norm_num
  refine ⟨roundDouble_values, ?_, ?_, ?_, ?_⟩
  · norm_num [double0_1, double0_4]
  · norm_num [double0_1, double0_2, double0_4]
  · simp only [calculateEyeZone, if_pos hlt]
  · simp only [calculateEyeZone, if_pos hlt]

/-- C5, amended (gaze-zone tie-break on the computed values): for an eye box with
`minX ≤ maxX` and `minY ≤ maxY`, an iris whose computed offset `iris.x - minX` equals the
computed third `(maxX - minX) / 3`, or equals twice the computed third, each taken as the
double the script computes, is classified `center` horizontally; likewise vertically for
`iris.y - minY` and `(maxY - minY) / 3`. -/
theorem calculateEyeZone_computed_boundary_center (iris : Landmark) (bounds : EyeBounds)
    (hx : bounds.minX ≤ bounds.maxX) (hy : bounds.minY ≤ bounds.maxY) :
    ((Double.sub iris.x bounds.minX = Double.div (Double.sub bounds.maxX bounds.minX) 3 ∨
        Double.sub iris.x bounds.minX =
          Double.mul 2 (Double.div (Double.sub bounds.maxX bounds.minX) 3)) →
      (calculateEyeZone iris bounds).horizontal = HDir.center) ∧
    ((Double.sub iris.y bounds.minY = Double.div (Double.sub bounds.maxY bounds.minY) 3 ∨
        Double.sub iris.y bounds.minY =
          Double.mul 2 (Double.div (Double.sub bounds.maxY bounds.minY) 3)) →
      (calculateEyeZone iris bounds).vertical = VDir.center) := by
  have hxm : Double.div (Double.sub bounds.maxX bounds.minX) 3 ≤
      Double.mul 2 (Double.div (Double.sub bounds.maxX bounds.minX) 3) :=
    le_roundDouble_two_mul _ (third_double bounds.minX bounds.maxX hx)
  have hym : Double.div (Double.sub bounds.maxY bounds.minY) 3 ≤
      Double.mul 2 (Double.div (Double.sub bounds.maxY bounds.minY) 3) :=
    le_roundDouble_two_mul _ (third_double bounds.minY bounds.maxY hy)
  constructor
  · intro h
    have h1 : ¬ (Double.sub iris.x bounds.minX <
        Double.div (Double.sub bounds.maxX bounds.minX) 3) := by
      rcases h with h | h <;> rw [h] <;> intro hlt <;> linarith
    have h2 : ¬ (Double.sub iris.x bounds.minX >
        Double.mul 2 (Double.div (Double.sub bounds.maxX bounds.minX) 3)) := by
      rcases h with h | h <;> rw [h] <;> intro hlt <;> linarith
    simp only [calculateEyeZone, if_neg h1, if_neg h2]
  · intro h
    have h1 : ¬ (Double.sub iris.y bounds.minY <
        Double.div (Double.sub bounds.maxY bounds.minY) 3) := by
      rcases h with h | h <;> rw [h] <;> intro hlt <;> linarith
    have h2 : ¬ (Double.sub iris.y bounds.minY >
        Double.mul 2 (Double.div (Double.sub bounds.maxY bounds.minY) 3)) := by
      rcases h with h | h <;> rw [h] <;> intro hlt <;> linarith
    simp only [calculateEyeZone, if_neg h1, if_neg h2]

theorem calculateEyeZone_computed_boundary_center_witness :
    ((0.25 : ℝ) ≤ 0.625 ∧
      Double.sub 0.375 0.25 = Double.div (Double.sub 0.625 0.25) 3 ∧
      Double.sub 0.5 0.25 = Double.mul 2 (Double.div (Double.sub 0.625 0.25) 3)) ∧
    (calculateEyeZone ⟨0.375, 0.5, 0⟩ ⟨0.25, 0.625, 0.25, 0.625⟩).horizontal = HDir.center ∧
    (calculateEyeZone ⟨0.375, 0.5, 0⟩ ⟨0.25, 0.625, 0.25, 0.625⟩).vertical = VDir.center :=
  have h1 : Double.sub 0.375 0.25 = Double.div (Double.sub 0.625 0.25) 3 := by
    rw [box_quarter_arith.1, box_quarter_arith.2.2.2.1]
  have h2 : Double.sub 0.5 0.25 = Double.mul 2 (Double.div (Double.sub 0.625 0.25) 3) := by
    rw [box_quarter_arith.1, box_quarter_arith.2.1, box_quarter_arith.2.2.2.2]
  ⟨⟨by norm_num, h1, h2⟩,
    (calculateEyeZone_computed_boundary_center ⟨0.375, 0.5, 0⟩ ⟨0.25, 0.625, 0.25, 0.625⟩
      (by norm_num) (by norm_num)).1 (Or.inl h1),
    (calculateEyeZone_computed_boundary_center ⟨0.375, 0.5, 0⟩ ⟨0.25, 0.625, 0.25, 0.625⟩
      (by norm_num) (by norm_num)).2 (Or.inr h2)⟩

/-! ## Eye-openness ratio -/

theorem hypot_nonneg (a b : ℝ) : 0 ≤ Math.hypot a b := Real.sqrt_nonneg _

theorem hypot_zero_right (a : ℝ) : Math.hypot a 0 = |a| := by
  simp [Math.hypot, Real.sqrt_sq_eq_abs]

theorem hypot_zero_left (b : ℝ) : Math.hypot 0 b = |b| := by
  simp [Math.hypot, Real.sqrt_sq_eq_abs]

theorem dist_toPlane (p q : Landmark) :
    dist p.toPlane q.toPlane = Math.hypot (p.x - q.x) (p.y - q.y) := by
  simp [Landmark.toPlane, Math.hypot, EuclideanSpace.dist_eq, Fin.sum_univ_two,
    Real.dist_eq, sq_abs]

theorem calculateEAR_of_lookup (landmarks : List Landmark) (i1 i2 i3 i4 : Nat)
    (rest : List Nat) (p1 p2 p3 p4 : Landmark)
    (h1 : landmarks[i1]? = some p1) (h2 : landmarks[i2]? = some p2)
    (h3 : landmarks[i3]? = some p3) (h4 : landmarks[i4]? = some p4) :
    calculateEAR landmarks (i1 :: i2 :: i3 :: i4 :: rest) =
      some (Math.hypot (p3.x - p4.x) (p3.y - p4.y) /
        (2 * Math.hypot (p1.x - p2.x) (p1.y - p2.y) + 1e-6)) := by
  simp [calculateEAR, h1, h2, h3, h4]

theorem eyeMesh_lookup (p1 p2 p3 p4 iris : Landmark) (i : Nat) (hi : i < 478) :
    (eyeMesh p1 p2 p3 p4 iris)[i]? = some
      (if i = 33 ∨ i = 362 then p1
        else if i = 133 ∨ i = 263 then p2
        else if i = 159 ∨ i = 386 then p3
        else if i = 145 ∨ i = 374 then p4
        else iris) := by
  simp [eyeMesh, List.getElem?_map, List.getElem?_range hi]


theorem narrowEyes_lookup :
    narrowEyes[33]? = some ⟨0, 0, 0⟩ ∧ narrowEyes[133]? = some ⟨1, 0, 0⟩ ∧
    narrowEyes[159]? = some ⟨0.5, 0, 0⟩ ∧ narrowEyes[145]? = some ⟨0.5, 0.1, 0⟩ ∧
    narrowEyes[362]? = some ⟨0, 0, 0⟩ ∧ narrowEyes[263]? = some ⟨1, 0, 0⟩ ∧
    narrowEyes[386]? = some ⟨0.5, 0, 0⟩ ∧ narrowEyes[374]? = some ⟨0.5, 0.1, 0⟩ := by
  refine ⟨?_, ?_, ?_, ?_, ?_, ?_, ?_, ?_⟩ <;>
    (unfold narrowEyes; rw [eyeMesh_lookup _ _ _ _ _ _ (by norm_num)]; simp)

/-- C9 (eye-openness ratio): when the four indices of an eye group select the landmarks
`p1, p2, p3, p4`, `calculateEAR` returns `dist(p3, p4) / (2 * dist(p1, p2) + 1e-6)` with
`dist` the Euclidean distance of the `(x, y)` points, and the denominator is strictly
positive (also when `p1 = p2`).  For `p1 = (0,0)`, `p2 = (1,0)`, `p3 = (0.5,0)`,
`p4 = (0.5,0.1)` the ratio is `0.1 / (2 + 1e-6)`, and when both eyes have this ratio
`isEyeContact` returns `false`. -/
theorem calculateEAR_ratio :
    (∀ (landmarks : List Landmark) (i1 i2 i3 i4 : Nat) (p1 p2 p3 p4 : Landmark),
      landmarks[i1]? = some p1 → landmarks[i2]? = some p2 →
      landmarks[i3]? = some p3 → landmarks[i4]? = some p4 →
      0 < 2 * dist p1.toPlane p2.toPlane + 1e-6 ∧
      calculateEAR landmarks [i1, i2, i3, i4] =
        some (dist p3.toPlane p4.toPlane / (2 * dist p1.toPlane p2.toPlane + 1e-6))) ∧
    (∀ (landmarks : List Landmark) (i1 i2 i3 i4 : Nat) (z1 z2 z3 z4 : ℝ),
      landmarks[i1]? = some ⟨0, 0, z1⟩ → landmarks[i2]? = some ⟨1, 0, z2⟩ →
      landmarks[i3]? = some ⟨0.5, 0, z3⟩ → landmarks[i4]? = some ⟨0.5, 0.1, z4⟩ →
      calculateEAR landmarks [i1, i2, i3, i4] = some (0.1 / (2 + 1e-6))) ∧
    (∀ (landmarks : List Landmark),
      calculateEAR landmarks LEFT_EYE_INDICES = some (0.1 / (2 + 1e-6)) →
      calculateEAR landmarks RIGHT_EYE_INDICES = some (0.1 / (2 + 1e-6)) →
      isEyeContact landmarks = some false) := by
  refine ⟨?_, ?_, ?_⟩
  · intro landmarks i1 i2 i3 i4 p1 p2 p3 p4 h1 h2 h3 h4
    constructor
    · have := dist_nonneg (x := p1.toPlane) (y := p2.toPlane)
      have h6 : (0 : ℝ) < 1e-6 := by norm_num
      linarith
    · rw [calculateEAR_of_lookup landmarks i1 i2 i3 i4 [] p1 p2 p3 p4 h1 h2 h3 h4,
        dist_toPlane, dist_toPlane]
  · intro landmarks i1 i2 i3 i4 z1 z2 z3 z4 h1 h2 h3 h4
    rw [calculateEAR_of_lookup landmarks i1 i2 i3 i4 [] _ _ _ _ h1 h2 h3 h4]
    simp only [sub_self, hypot_zero_right, hypot_zero_left]
    norm_num [abs_of_nonneg]
  · intro landmarks hl hr
    simp only [isEyeContact, hl, hr]
    norm_num

theorem calculateEAR_ratio_witness :
    (0 < 2 * dist (Landmark.toPlane ⟨0, 0, 0⟩) (Landmark.toPlane ⟨1, 0, 0⟩) + 1e-6 ∧
      calculateEAR narrowEyes [33, 133, 159, 145] =
        some (dist (Landmark.toPlane ⟨0.5, 0, 0⟩) (Landmark.toPlane ⟨0.5, 0.1, 0⟩) /
          (2 * dist (Landmark.toPlane ⟨0, 0, 0⟩) (Landmark.toPlane ⟨1, 0, 0⟩) + 1e-6))) ∧
    calculateEAR narrowEyes [33, 133, 159, 145] = some (0.1 / (2 + 1e-6)) ∧
    isEyeContact narrowEyes = some false :=
  ⟨calculateEAR_ratio.1 narrowEyes 33 133 159 145 _ _ _ _
      narrowEyes_lookup.1 narrowEyes_lookup.2.1 narrowEyes_lookup.2.2.1
      narrowEyes_lookup.2.2.2.1,
    calculateEAR_ratio.2.1 narrowEyes 33 133 159 145 0 0 0 0
      narrowEyes_lookup.1 narrowEyes_lookup.2.1 narrowEyes_lookup.2.2.1
      narrowEyes_lookup.2.2.2.1,
    calculateEAR_ratio.2.2 narrowEyes
      (calculateEAR_ratio.2.1 narrowEyes 33 133 159 145 0 0 0 0
        narrowEyes_lookup.1 narrowEyes_lookup.2.1 narrowEyes_lookup.2.2.1
        narrowEyes_lookup.2.2.2.1)
      (calculateEAR_ratio.2.1 narrowEyes 362 263 386 374 0 0 0 0
        narrowEyes_lookup.2.2.2.2.1 narrowEyes_lookup.2.2.2.2.2.1
        narrowEyes_lookup.2.2.2.2.2.2.1 narrowEyes_lookup.2.2.2.2.2.2.2)⟩


/-! ## Head posture -/

theorem atan2_zero_one : Math.atan2 0 1 = 0 := by
  simp [Math.atan2]

theorem matrixToEulerAngles_identity :
    matrixToEulerAngles identityMatrix = { pitch := 0, yaw := 0, roll := 0 } := by
  have h0 : identityMatrix 0 = 1 := by simp [identityMatrix]
  have h4 : identityMatrix 4 = 0 := by simp [identityMatrix]
  have h8 : identityMatrix 8 = 0 := by simp [identityMatrix]
  have h9 : identityMatrix 9 = 0 := by simp [identityMatrix]
  have h10 : identityMatrix 10 = 1 := by simp [identityMatrix]
  simp [matrixToEulerAngles, h0, h4, h8, h9, h10, atan2_zero_one]

theorem matrixToEulerAngles_rolled :
    matrixToEulerAngles rolledMatrix = { pitch := 0, yaw := 0, roll := 25 } := by
  have h0 : rolledMatrix 0 = Real.cos (25 * Real.pi / 180) := by simp [rolledMatrix]
  have h4 : rolledMatrix 4 = Real.sin (25 * Real.pi / 180) := by simp [rolledMatrix]
  have h8 : rolledMatrix 8 = 0 := by simp [rolledMatrix]
  have h9 : rolledMatrix 9 = 0 := by simp [rolledMatrix]
  have h10 : rolledMatrix 10 = 1 := by simp [rolledMatrix]
  have hpi := Real.pi_pos
  have harg : Math.atan2 (Real.sin (25 * Real.pi / 180)) (Real.cos (25 * Real.pi / 180))
      = 25 * Real.pi / 180 := by
    unfold Math.atan2
    rw [Complex.ofReal_cos, Complex.ofReal_sin]
    apply Complex.arg_cos_add_sin_mul_I
    constructor <;> linarith
  have hne : Real.pi ≠ 0 := ne_of_gt hpi
  have hroll : 25 * Real.pi / 180 * (180 / Real.pi) = 25 := by field_simp
  simp [matrixToEulerAngles, h0, h4, h8, h9, h10, harg, atan2_zero_one, hroll]

theorem isHeadPostureStable_of_first (results : FaceLandmarkerResult)
    (m : TransformationMatrix) (rest : List TransformationMatrix)
    (h : results.facialTransformationMatrixes = some (m :: rest)) :
    isHeadPostureStable results =
      (decide (|(matrixToEulerAngles m.data).pitch| < 25) &&
        decide (|(matrixToEulerAngles m.data).yaw| < 25) &&
        decide (|(matrixToEulerAngles m.data).roll| < 25)) := by
  simp [isHeadPostureStable, h, MAX_HEAD_ANGLE]


/-- C7 (head-posture decision): `isHeadPostureStable` is a total function to the booleans.
It returns `false` for every detector result without a transformation matrix for the first
face (the field missing, or an empty list).  For a result whose first matrix is `m` it
returns `true` exactly when the absolute values of the pitch, yaw and roll that
`matrixToEulerAngles` computes from `m` are all strictly below 25; in particular an angle of
exactly 25 degrees makes it return `false`. -/
theorem isHeadPostureStable_decision :
    (∀ results : FaceLandmarkerResult,
      (results.facialTransformationMatrixes = none ∨
        results.facialTransformationMatrixes = some []) →
      isHeadPostureStable results = false) ∧
    (∀ (results : FaceLandmarkerResult) (m : TransformationMatrix)
      (rest : List TransformationMatrix),
      results.facialTransformationMatrixes = some (m :: rest) →
      (isHeadPostureStable results = true ↔
        |(matrixToEulerAngles m.data).pitch| < 25 ∧
        |(matrixToEulerAngles m.data).yaw| < 25 ∧
        |(matrixToEulerAngles m.data).roll| < 25)) ∧
    (∀ (results : FaceLandmarkerResult) (m : TransformationMatrix)
      (rest : List TransformationMatrix),
      results.facialTransformationMatrixes = some (m :: rest) →
      (|(matrixToEulerAngles m.data).pitch| = 25 ∨
        |(matrixToEulerAngles m.data).yaw| = 25 ∨
        |(matrixToEulerAngles m.data).roll| = 25) →
      isHeadPostureStable results = false) := by
  refine ⟨?_, ?_, ?_⟩
  · intro results h
    rcases h with h | h <;> simp [isHeadPostureStable, h]
  · intro results m rest h
    rw [isHeadPostureStable_of_first results m rest h]
    simp [and_assoc]
  · intro results m rest h h25
    rw [isHeadPostureStable_of_first results m rest h]
    rcases h25 with h25 | h25 | h25 <;> simp [h25]

theorem isHeadPostureStable_decision_witness :
    isHeadPostureStable ⟨some [narrowEyes], none⟩ = false ∧
    isHeadPostureStable ⟨some [narrowEyes], some []⟩ = false ∧
    isHeadPostureStable ⟨some [narrowEyes], some [⟨identityMatrix⟩]⟩ = true ∧
    isHeadPostureStable ⟨some [narrowEyes], some [⟨rolledMatrix⟩]⟩ = false :=
  ⟨isHeadPostureStable_decision.1 ⟨some [narrowEyes], none⟩ (Or.inl rfl),
    isHeadPostureStable_decision.1 ⟨some [narrowEyes], some []⟩ (Or.inr rfl),
    (isHeadPostureStable_decision.2.1 ⟨some [narrowEyes], some [⟨identityMatrix⟩]⟩
      ⟨identityMatrix⟩ [] rfl).2 (by simp [matrixToEulerAngles_identity]),
    isHeadPostureStable_decision.2.2 ⟨some [narrowEyes], some [⟨rolledMatrix⟩]⟩
      ⟨rolledMatrix⟩ [] rfl (Or.inr (Or.inr (by simp [matrixToEulerAngles_rolled])))⟩

/-- C8 (Euler extraction on the identity): for the sixteen-entry identity matrix
`matrixToEulerAngles` returns pitch `0`, yaw `0` and roll `0`, and `isHeadPostureStable`
returns `true` on every detector result whose first transformation matrix is that
matrix. -/
theorem identity_euler_angles_stable :
    matrixToEulerAngles identityMatrix = { pitch := 0, yaw := 0, roll := 0 } ∧
    ∀ (faceLandmarks : Option (List (List Landmark))) (rest : List TransformationMatrix),
      isHeadPostureStable
        { faceLandmarks := faceLandmarks
          facialTransformationMatrixes := some (⟨identityMatrix⟩ :: rest) } = true := by
  refine ⟨matrixToEulerAngles_identity, ?_⟩
  intro faceLandmarks rest
  rw [isHeadPostureStable_of_first _ ⟨identityMatrix⟩ rest rfl]
  simp [matrixToEulerAngles_identity]


/-! ## The frame loop -/

theorem predictWebcam_stopped (s : State) (t : ℝ) (r : FaceLandmarkerResult)
    (h : s.webcamRunning = false) : predictWebcam s t r = s := by
  simp [predictWebcam, h]

theorem predictWebcam_repeated (s : State) (t : ℝ) (r : FaceLandmarkerResult)
    (h : s.webcamRunning = true) (ht : t = s.lastVideoTime) :
    predictWebcam s t r = { s with totalFrames := s.totalFrames + 1 } := by
  simp [predictWebcam, h, ht]

theorem predictWebcam_calibrating (s : State) (t : ℝ) (r : FaceLandmarkerResult)
    (h : s.webcamRunning = true) (ht : s.lastVideoTime ≠ t) (hc : s.totalFrames < 30) :
    predictWebcam s t r =
      { s with totalFrames := s.totalFrames + 1, lastVideoTime := t } := by
  have h1 : ¬ (s.totalFrames + 1 > ADAPTIVE_FRAMES) := by unfold ADAPTIVE_FRAMES; omega
  simp only [predictWebcam, h, h1]
  simp [ht]
  split <;> rfl

theorem predictWebcam_totalFrames (s : State) (t : ℝ) (r : FaceLandmarkerResult)
    (h : s.webcamRunning = true) :
    (predictWebcam s t r).totalFrames = s.totalFrames + 1 := by
  by_cases ht : s.lastVideoTime = t
  · simp [predictWebcam, h, ht]
  · rcases hfl : r.faceLandmarks with _ | ⟨_ | ⟨landmarks, rest⟩⟩
    · simp [predictWebcam, h, ht, hfl]
    · simp [predictWebcam, h, ht, hfl]
    · by_cases h30 : s.totalFrames + 1 > ADAPTIVE_FRAMES
      · rcases he : eyeContactExpr landmarks with _ | b
        · simp [predictWebcam, h, ht, hfl, h30, he]
        · simp [predictWebcam, h, ht, hfl, h30, he]
      · simp [predictWebcam, h, ht, hfl, h30]

theorem eyeContactExpr_perfect (landmarks : List Landmark)
    (h1 : isEyeContact landmarks = some true) (h2 : isDirectGaze landmarks = some true) :
    eyeContactExpr landmarks = some true := by
  simp [eyeContactExpr, h1, h2]

theorem predictWebcam_perfect (s : State) (t : ℝ) (r : FaceLandmarkerResult)
    (h : s.webcamRunning = true) (ht : s.lastVideoTime ≠ t) (hc : 30 ≤ s.totalFrames)
    (hp : perfectFrame r) :
    predictWebcam s t r =
      { s with
        totalFrames := s.totalFrames + 1
        lastVideoTime := t
        eyeContact := true
        eyeContactFrames := s.eyeContactFrames + 1
        headPosture := true
        headPostureFrames := s.headPostureFrames + 1 } := by
  obtain ⟨landmarks, rest, hl, he, hg, hh⟩ := hp
  have h1 : s.totalFrames + 1 > ADAPTIVE_FRAMES := by unfold ADAPTIVE_FRAMES; omega
  simp [predictWebcam, h, ht, h1, hl, eyeContactExpr_perfect landmarks he hg, hh]


/-! ## A concrete frame that classifies as perfect -/

theorem eyeMesh_eyes (p1 p2 p3 p4 iris : Landmark) :
    (eyeMesh p1 p2 p3 p4 iris)[33]? = some p1 ∧ (eyeMesh p1 p2 p3 p4 iris)[133]? = some p2 ∧
    (eyeMesh p1 p2 p3 p4 iris)[159]? = some p3 ∧ (eyeMesh p1 p2 p3 p4 iris)[145]? = some p4 ∧
    (eyeMesh p1 p2 p3 p4 iris)[362]? = some p1 ∧ (eyeMesh p1 p2 p3 p4 iris)[263]? = some p2 ∧
    (eyeMesh p1 p2 p3 p4 iris)[386]? = some p3 ∧ (eyeMesh p1 p2 p3 p4 iris)[374]? = some p4 ∧
    (eyeMesh p1 p2 p3 p4 iris)[468]? = some iris ∧
    (eyeMesh p1 p2 p3 p4 iris)[473]? = some iris := by
  refine ⟨?_, ?_, ?_, ?_, ?_, ?_, ?_, ?_, ?_, ?_⟩ <;>
    (rw [eyeMesh_lookup _ _ _ _ _ _ (by norm_num)]; simp)

theorem openEyes_eyes :
    openEyes[33]? = some ⟨0.25, 0.4375, 0⟩ ∧ openEyes[133]? = some ⟨0.625, 0.4375, 0⟩ ∧
    openEyes[159]? = some ⟨0.4375, 0.25, 0⟩ ∧ openEyes[145]? = some ⟨0.4375, 0.625, 0⟩ ∧
    openEyes[362]? = some ⟨0.25, 0.4375, 0⟩ ∧ openEyes[263]? = some ⟨0.625, 0.4375, 0⟩ ∧
    openEyes[386]? = some ⟨0.4375, 0.25, 0⟩ ∧ openEyes[374]? = some ⟨0.4375, 0.625, 0⟩ ∧
    openEyes[468]? = some ⟨0.4375, 0.4375, 0⟩ ∧
    openEyes[473]? = some ⟨0.4375, 0.4375, 0⟩ :=
  eyeMesh_eyes _ _ _ _ _

theorem isEyeContact_openEyes : isEyeContact openEyes = some true := by
  have h := openEyes_eyes
  have hl : calculateEAR openEyes LEFT_EYE_INDICES = some (0.375 / (2 * 0.375 + 1e-6)) := by
    unfold LEFT_EYE_INDICES
    rw [calculateEAR_of_lookup _ 33 133 159 145 [] _ _ _ _ h.1 h.2.1 h.2.2.1 h.2.2.2.1]
    simp only [sub_self, hypot_zero_right, hypot_zero_left]
    norm_num [abs_of_nonneg, abs_of_neg]
  have hr : calculateEAR openEyes RIGHT_EYE_INDICES = some (0.375 / (2 * 0.375 + 1e-6)) := by
    unfold RIGHT_EYE_INDICES
    rw [calculateEAR_of_lookup _ 362 263 386 374 [] _ _ _ _ h.2.2.2.2.1 h.2.2.2.2.2.1
      h.2.2.2.2.2.2.1 h.2.2.2.2.2.2.2.1]
    simp only [sub_self, hypot_zero_right, hypot_zero_left]
    norm_num [abs_of_nonneg, abs_of_neg]
  simp only [isEyeContact, hl, hr]
  norm_num

theorem getEyeBounds_openEyes :
    getEyeBounds openEyes LEFT_EYE_INDICES = some ⟨0.25, 0.625, 0.25, 0.625⟩ ∧
    getEyeBounds openEyes RIGHT_EYE_INDICES = some ⟨0.25, 0.625, 0.25, 0.625⟩ := by
  have h := openEyes_eyes
  constructor
  · simp [getEyeBounds, LEFT_EYE_INDICES, h.1, h.2.1, h.2.2.1, h.2.2.2.1]
    norm_num
  · simp [getEyeBounds, RIGHT_EYE_INDICES, h.2.2.2.2.1, h.2.2.2.2.2.1, h.2.2.2.2.2.2.1,
      h.2.2.2.2.2.2.2.1]
    norm_num

theorem calculateEyeZone_openEyes :
    calculateEyeZone ⟨0.4375, 0.4375, 0⟩ ⟨0.25, 0.625, 0.25, 0.625⟩ =
      { horizontal := HDir.center, vertical := VDir.center } := by
  obtain ⟨h1, h2, h3, _, _⟩ := box_quarter_arith
  simp only [calculateEyeZone, h1, h2, h3]
  norm_num

theorem isDirectGaze_openEyes : isDirectGaze openEyes = some true := by
  have h := openEyes_eyes
  have hl : openEyes[468]? = some ⟨0.4375, 0.4375, 0⟩ := h.2.2.2.2.2.2.2.2.1
  have hr : openEyes[473]? = some ⟨0.4375, 0.4375, 0⟩ := h.2.2.2.2.2.2.2.2.2
  simp [isDirectGaze, detectGazeDirection, getEyeBounds_openEyes.1, getEyeBounds_openEyes.2,
    LEFT_IRIS_INDICES, RIGHT_IRIS_INDICES, hl, hr, calculateEyeZone_openEyes]

theorem perfectFrame_perfectResults : perfectFrame perfectResults := by
  refine ⟨openEyes, [], rfl, isEyeContact_openEyes, isDirectGaze_openEyes, ?_⟩
  unfold perfectResults
  rw [isHeadPostureStable_of_first _ ⟨identityMatrix⟩ [] rfl]
  simp [matrixToEulerAngles_identity]


/-! ## Runs of the frame loop -/

theorem feed_cons (s : State) (f : ℝ × FaceLandmarkerResult)
    (frames : List (ℝ × FaceLandmarkerResult)) :
    feed s (f :: frames) = feed (predictWebcam s f.1 f.2) frames := rfl

theorem feed_append (s : State) (xs ys : List (ℝ × FaceLandmarkerResult)) :
    feed s (xs ++ ys) = feed (feed s xs) ys := by
  simp [feed, List.foldl_append]

theorem run_frames (s : State) (frames : List (ℝ × FaceLandmarkerResult)) :
    run s (frames.map fun f => Event.frame f.1 f.2) = feed s frames := by
  simp [run, feed, List.foldl_map, step]

/-- A run in which every callback sees a new video frame and every callback past the
calibration window sees a perfect frame: all counters and flags of the final state. -/
theorem feed_perfect (frames : List (ℝ × FaceLandmarkerResult)) :
    ∀ s : State, s.webcamRunning = true →
      List.Chain (fun a b => a ≠ b) s.lastVideoTime (frames.map Prod.fst) →
      (∀ (k : Nat) (hk : k < frames.length), 30 ≤ s.totalFrames + k →
        perfectFrame (frames[k]).2) →
      (feed s frames).webcamRunning = true ∧
      (feed s frames).totalFrames = s.totalFrames + frames.length ∧
      (feed s frames).lastVideoTime =
        (frames.map Prod.fst).foldl (fun _ t => t) s.lastVideoTime ∧
      (feed s frames).eyeContactFrames =
        s.eyeContactFrames + ((s.totalFrames + frames.length - 30) - (s.totalFrames - 30)) ∧
      (feed s frames).headPostureFrames =
        s.headPostureFrames + ((s.totalFrames + frames.length - 30) - (s.totalFrames - 30)) ∧
      (frames ≠ [] → 30 < s.totalFrames + frames.length →
        (feed s frames).eyeContact = true ∧ (feed s frames).headPosture = true) := by
  induction frames with
  | nil =>
    intro s hrun _ _
    simp [feed, hrun]
  | cons f fs ih =>
    intro s hrun hchain hperfect
    rw [List.map_cons, List.chain_cons] at hchain
    obtain ⟨hnew, htail⟩ := hchain
    rw [feed_cons]
    by_cases hc : s.totalFrames < 30
    · have hstep := predictWebcam_calibrating s f.1 f.2 hrun hnew hc
      have hih := ih (predictWebcam s f.1 f.2) (by rw [hstep]; exact hrun)
        (by rw [hstep]; exact htail)
        (by
          intro k hk h30
          rw [hstep] at h30
          have := hperfect (k + 1) (by simp; omega) (by simp at h30 ⊢; omega)
          simpa using this)
      rw [hstep] at hih
      obtain ⟨h1, h2, h3, h4, h5, h6⟩ := hih
      rw [hstep]
      simp only [List.length_cons, List.map_cons, List.foldl_cons] at *
      refine ⟨h1, by omega, h3, by omega, by omega, ?_⟩
      intro _ h30
      by_cases hfs : fs = []
      · subst hfs; simp at h30; omega
      · exact h6 hfs (by omega)
    · have h30 : 30 ≤ s.totalFrames := by omega
      have hp : perfectFrame f.2 := by
        have := hperfect 0 (by simp) (by omega)
        simpa using this
      have hstep := predictWebcam_perfect s f.1 f.2 hrun hnew h30 hp
      have hih := ih (predictWebcam s f.1 f.2) (by rw [hstep]; exact hrun)
        (by rw [hstep]; exact htail)
        (by
          intro k hk _
          have := hperfect (k + 1) (by simp; omega) (by omega)
          simpa using this)
      rw [hstep] at hih
      obtain ⟨h1, h2, h3, h4, h5, h6⟩ := hih
      rw [hstep]
      simp only [List.length_cons, List.map_cons, List.foldl_cons] at *
      refine ⟨h1, by omega, h3, by omega, by omega, ?_⟩
      intro _ _
      by_cases hfs : fs = []
      · subst hfs; simp [feed]
      · exact h6 hfs (by omega)


theorem updateScoreDisplay_all_scored (t : Nat) (ht : 30 < t) :
    updateScoreDisplay t (t - 30) (t - 30) =
      { eyePercent := 100, headPercent := 100, overall := 100,
        eyeContactScore := 100, headPostureScore := 100, overallScore := 100 } := by
  have h1 : t > ADAPTIVE_FRAMES := by unfold ADAPTIVE_FRAMES; omega
  have h3 : ((t - 30 : Nat) : ℚ) = (t : ℚ) - 30 := by
    rw [Nat.cast_sub (by omega)]; norm_num
  have h4 : (1 : ℚ) ≤ (t : ℚ) - 30 := by
    rw [← h3]; exact_mod_cast (by omega : 1 ≤ t - 30)
  have h5 : max ((t : ℚ) - 30) 1 = (t : ℚ) - 30 := max_eq_left h4
  have h6 : (t : ℚ) - 30 ≠ 0 := by linarith
  have h7 : ((ADAPTIVE_FRAMES : Nat) : ℚ) = 30 := by simp [ADAPTIVE_FRAMES]
  simp only [updateScoreDisplay, h1, if_true, h7, h5, h3, div_self h6]
  norm_num

theorem enableCam_start (s0 : State) (hl : s0.faceLandmarker = true)
    (hr : s0.webcamRunning = false) :
    enableCam s0 =
      { s0 with webcamRunning := true, eyeContactFrames := 0, headPostureFrames := 0,
                totalFrames := 0 } := by
  simp [enableCam, hl, hr]

theorem enableCam_fields (s0 : State) (hl : s0.faceLandmarker = true)
    (hr : s0.webcamRunning = false) :
    (enableCam s0).webcamRunning = true ∧
    (enableCam s0).lastVideoTime = s0.lastVideoTime ∧
    (enableCam s0).totalFrames = 0 ∧
    (enableCam s0).eyeContactFrames = 0 ∧
    (enableCam s0).headPostureFrames = 0 := by
  simp [enableCam, hl, hr]

theorem perfectStream_length (n : Nat) : (perfectStream n).length = n := by
  simp [perfectStream]

theorem perfectStream_perfect (n k : Nat) (hk : k < (perfectStream n).length) :
    perfectFrame ((perfectStream n)[k]).2 := by
  simp [perfectStream, perfectFrame_perfectResults]

theorem perfectStream_new (n : Nat) :
    List.Chain (fun a b => a ≠ b) (-1 : ℝ) ((perfectStream n).map Prod.fst) := by
  have h : (perfectStream n).map Prod.fst =
      (List.range' 1 n).map (fun k : Nat => (k : ℝ) - 1) := by
    simp [perfectStream, Function.comp_def]
  have h0 : (-1 : ℝ) = (fun k : Nat => (k : ℝ) - 1) 0 := by simp
  rw [h, h0, List.chain_map (fun k : Nat => (k : ℝ) - 1)]
  refine List.Chain.imp ?_ (List.chain_lt_range' 0 n Nat.one_pos)
  intro a b hab heq
  have : (a : ℝ) = (b : ℝ) := by simpa using heq
  have : a = b := by exact_mod_cast this
  omega

theorem perfectStream_last (n : Nat) (a : ℝ) :
    ((perfectStream (n + 1)).map Prod.fst).foldl (fun _ t => t) a = (n : ℝ) := by
  simp [perfectStream, List.range'_1_concat, List.foldl_append]


/-! ## The counter invariant -/

theorem predictWebcam_counters (s : State) (t : ℝ) (r : FaceLandmarkerResult)
    (h1 : s.eyeContactFrames ≤ s.totalFrames - 30)
    (h2 : s.headPostureFrames ≤ s.totalFrames - 30) :
    (predictWebcam s t r).eyeContactFrames ≤ (predictWebcam s t r).totalFrames - 30 ∧
    (predictWebcam s t r).headPostureFrames ≤ (predictWebcam s t r).totalFrames - 30 := by
  unfold predictWebcam
  by_cases hrun : s.webcamRunning = true
  · by_cases ht : s.lastVideoTime = t
    · simp only [hrun, ht]
      simp
      omega
    · simp only [hrun]
      simp [ht]
      split
      · by_cases h30 : s.totalFrames + 1 > ADAPTIVE_FRAMES
        · simp only [h30, if_true]
          unfold ADAPTIVE_FRAMES at h30
          split
          · simp; omega
          · constructor
            · simp; split <;> omega
            · simp; split <;> omega
        · simp only [h30, if_false]
          simp; omega
      · simp; omega
  · simp [hrun, h1, h2]

theorem step_counters (s : State) (e : Event)
    (h1 : s.eyeContactFrames ≤ s.totalFrames - 30)
    (h2 : s.headPostureFrames ≤ s.totalFrames - 30) :
    (step s e).eyeContactFrames ≤ (step s e).totalFrames - 30 ∧
    (step s e).headPostureFrames ≤ (step s e).totalFrames - 30 := by
  cases e with
  | landmarkerCreated => exact ⟨h1, h2⟩
  | click =>
    simp only [step, enableCam]
    split
    · exact ⟨h1, h2⟩
    · split
      · exact ⟨h1, h2⟩
      · simp
  | frame t r => exact predictWebcam_counters s t r h1 h2

theorem run_counters (events : List Event) :
    ∀ s : State, s.eyeContactFrames ≤ s.totalFrames - 30 →
      s.headPostureFrames ≤ s.totalFrames - 30 →
      (run s events).eyeContactFrames ≤ (run s events).totalFrames - 30 ∧
      (run s events).headPostureFrames ≤ (run s events).totalFrames - 30 := by
  induction events with
  | nil => intro s h1 h2; exact ⟨h1, h2⟩
  | cons e es ih =>
    intro s h1 h2
    have hs := step_counters s e h1 h2
    exact ih (step s e) hs.1 hs.2

theorem int_bound_of_nat (e t : Nat) (h : e ≤ t - 30) :
    (e : ℤ) ≤ max ((t : ℤ) - 30) 0 := by
  rcases le_total t 30 with ht | ht
  · have : e = 0 := by omega
    subst this
    exact le_max_right _ _
  · refine le_trans ?_ (le_max_left _ _)
    omega

/-- C1 (counter invariant): in every state reached from a session start (`enableCam`
resetting the counters, from any state with a detector and the webcam off) by any sequence
of events, whether `predictWebcam` callbacks with any video clock and any detector result
or further clicks that stop and restart the session,
`eyeContactFrames ≤ max(totalFrames - 30, 0)` and
`headPostureFrames ≤ max(totalFrames - 30, 0)`. -/
theorem counter_invariant (s0 : State) (events : List Event)
    (hl : s0.faceLandmarker = true) (hr : s0.webcamRunning = false) :
    ((run (enableCam s0) events).eyeContactFrames : ℤ) ≤
      max (((run (enableCam s0) events).totalFrames : ℤ) - 30) 0 ∧
    ((run (enableCam s0) events).headPostureFrames : ℤ) ≤
      max (((run (enableCam s0) events).totalFrames : ℤ) - 30) 0 := by
  have hs := enableCam_start s0 hl hr
  have h := run_counters events (enableCam s0) (by rw [hs]; simp) (by rw [hs]; simp)
  exact ⟨int_bound_of_nat _ _ h.1, int_bound_of_nat _ _ h.2⟩

theorem counter_invariant_witness :
    State.ready.faceLandmarker = true ∧ State.ready.webcamRunning = false ∧
    ((run (enableCam State.ready) mixedSession).eyeContactFrames : ℤ) ≤
      max (((run (enableCam State.ready) mixedSession).totalFrames : ℤ) - 30) 0 ∧
    ((run (enableCam State.ready) mixedSession).headPostureFrames : ℤ) ≤
      max (((run (enableCam State.ready) mixedSession).totalFrames : ℤ) - 30) 0 :=
  ⟨rfl, rfl, counter_invariant State.ready mixedSession rfl rfl⟩

/-! ## End-to-end sessions -/

/-- C4 (perfect session): start a session (`enableCam` from a state with a detector and the
webcam off, which resets the counters) and process `n > 30` callbacks, each with a video
clock different from the previous one (a new video frame), where every frame after the 30th
has a detected face on which `isEyeContact`, `isDirectGaze` and `isHeadPostureStable` all
return `true`.  Then the eye-contact, head-posture and overall percentages, raw and
displayed, are all `100`.  (Nothing is required of the detector results of the first 30
frames.) -/
theorem perfect_session (s0 : State) (frames : List (ℝ × FaceLandmarkerResult))
    (hl : s0.faceLandmarker = true) (hr : s0.webcamRunning = false)
    (hn : 30 < frames.length)
    (hnew : List.Chain (fun a b => a ≠ b) s0.lastVideoTime (frames.map Prod.fst))
    (hperfect : ∀ (k : Nat) (hk : k < frames.length), 30 ≤ k → perfectFrame (frames[k]).2) :
    (feed (enableCam s0) frames).scores =
      { eyePercent := 100, headPercent := 100, overall := 100,
        eyeContactScore := 100, headPostureScore := 100, overallScore := 100 } := by
  obtain ⟨hR, hV, hT, hE, hH⟩ := enableCam_fields s0 hl hr
  have h := feed_perfect frames (enableCam s0) hR (by rw [hV]; exact hnew)
    (by
      intro k hk h30
      rw [hT] at h30
      exact hperfect k hk (by simpa using h30))
  obtain ⟨_, h2, _, h4, h5, _⟩ := h
  rw [hT] at h2 h4 h5
  rw [hE] at h4
  rw [hH] at h5
  simp only [Nat.zero_add, Nat.zero_sub, Nat.sub_zero] at h2 h4 h5
  rw [State.scores, h2, h4, h5]
  exact updateScoreDisplay_all_scored frames.length hn

theorem perfect_session_witness :
    State.ready.faceLandmarker = true ∧ State.ready.webcamRunning = false ∧
    30 < (perfectStream 35).length ∧
    (feed (enableCam State.ready) (perfectStream 35)).scores =
      { eyePercent := 100, headPercent := 100, overall := 100,
        eyeContactScore := 100, headPostureScore := 100, overallScore := 100 } :=
  ⟨rfl, rfl, by rw [perfectStream_length]; decide,
    perfect_session State.ready (perfectStream 35) rfl rfl
      (by rw [perfectStream_length]; decide) (perfectStream_new 35)
      (fun k hk _ => perfectStream_perfect 35 k hk)⟩

theorem feed_dilutedSession :
    (feed (enableCam State.ready) dilutedSession).totalFrames = 35 ∧
    (feed (enableCam State.ready) dilutedSession).eyeContactFrames = 4 ∧
    (feed (enableCam State.ready) dilutedSession).headPostureFrames = 4 := by
  obtain ⟨hR, hV, hT, hE, hH⟩ := enableCam_fields State.ready rfl rfl
  have h := feed_perfect (perfectStream 34) (enableCam State.ready) hR
    (by rw [hV]; exact perfectStream_new 34)
    (fun k hk _ => perfectStream_perfect 34 k hk)
  obtain ⟨h1, h2, h3, h4, h5, _⟩ := h
  rw [perfectStream_last 33] at h3
  rw [hT, perfectStream_length] at h2 h4 h5
  rw [hE] at h4
  rw [hH] at h5
  have hrep := predictWebcam_repeated (feed (enableCam State.ready) (perfectStream 34)) 33
    perfectResults h1 (by rw [h3]; norm_num)
  have hfeed : feed (enableCam State.ready) dilutedSession =
      predictWebcam (feed (enableCam State.ready) (perfectStream 34)) 33 perfectResults := by
    unfold dilutedSession
    rw [feed_append]
    simp only [feed, List.foldl_cons, List.foldl_nil]
  rw [hfeed, hrep]
  simp [h2, h4, h5]

/-- C10 (repeated video frames dilute the score): while the session runs `predictWebcam`
increments `totalFrames` on every callback, and a callback that finds the video clock
unchanged changes nothing else (no detection, no classification).  In the session
`dilutedSession` of 35 callbacks every detector result classifies as eye contact and stable
posture; its first 34 callbacks leave `totalFrames = 34` and the video clock at `33`, and
its 35th callback arrives with the clock still at `33`.  At the end the eye-contact,
head-posture and overall percentages are `80`, strictly below `100`. -/
theorem repeated_frames_dilute :
    (∀ (s : State) (t : ℝ) (r : FaceLandmarkerResult), s.webcamRunning = true →
      (predictWebcam s t r).totalFrames = s.totalFrames + 1) ∧
    (∀ (s : State) (t : ℝ) (r : FaceLandmarkerResult), s.webcamRunning = true →
      t = s.lastVideoTime →
      predictWebcam s t r = { s with totalFrames := s.totalFrames + 1 }) ∧
    dilutedSession.length = 35 ∧
    (∀ f ∈ dilutedSession, perfectFrame f.2) ∧
    (feed (enableCam State.ready) (dilutedSession.take 34)).totalFrames = 34 ∧
    (feed (enableCam State.ready) (dilutedSession.take 34)).lastVideoTime = 33 ∧
    dilutedSession[34]? = some (33, perfectResults) ∧
    (feed (enableCam State.ready) dilutedSession).scores =
      { eyePercent := 80, headPercent := 80, overall := 80,
        eyeContactScore := 80, headPostureScore := 80, overallScore := 80 } ∧
    (feed (enableCam State.ready) dilutedSession).scores.eyePercent < 100 ∧
    (feed (enableCam State.ready) dilutedSession).scores.headPercent < 100 ∧
    (feed (enableCam State.ready) dilutedSession).scores.overall < 100 := by
  have hscores : (feed (enableCam State.ready) dilutedSession).scores =
      { eyePercent := 80, headPercent := 80, overall := 80,
        eyeContactScore := 80, headPostureScore := 80, overallScore := 80 } := by
    obtain ⟨h1, h2, h3⟩ := feed_dilutedSession
    rw [State.scores, h1, h2, h3]
    simp [updateScoreDisplay, ADAPTIVE_FRAMES]
    norm_num
  have htake : dilutedSession.take 34 = perfectStream 34 := by
    unfold dilutedSession
    rw [List.take_append_of_le_length (by rw [perfectStream_length])]
    exact List.take_of_length_le (by rw [perfectStream_length])
  obtain ⟨hR, hV, hT, _, _⟩ := enableCam_fields State.ready rfl rfl
  have hfirst := feed_perfect (perfectStream 34) (enableCam State.ready) hR
    (by rw [hV]; exact perfectStream_new 34)
    (fun k hk _ => perfectStream_perfect 34 k hk)
  refine ⟨?_, ?_, ?_, ?_, ?_, ?_, ?_, hscores, ?_, ?_, ?_⟩
  · intro s t r hrun
    exact predictWebcam_totalFrames s t r hrun
  · intro s t r hrun ht
    exact predictWebcam_repeated s t r hrun ht
  · simp [dilutedSession, perfectStream_length]
  · intro f hf
    simp only [dilutedSession, perfectStream, List.mem_append, List.mem_map,
      List.mem_singleton] at hf
    rcases hf with ⟨k, _, rfl⟩ | rfl
    · exact perfectFrame_perfectResults
    · exact perfectFrame_perfectResults
  · rw [htake, hfirst.2.1, hT, perfectStream_length]
  · rw [htake, hfirst.2.2.1, perfectStream_last 33]
    norm_num
  · unfold dilutedSession
    rw [List.getElem?_append_right (by rw [perfectStream_length])]
    simp [perfectStream_length]
  · rw [hscores]; norm_num
  · rw [hscores]; norm_num
  · rw [hscores]; norm_num

theorem repeated_frames_dilute_witness :
    (feed (enableCam State.ready) (perfectStream 34)).webcamRunning = true ∧
    predictWebcam (feed (enableCam State.ready) (perfectStream 34))
        (feed (enableCam State.ready) (perfectStream 34)).lastVideoTime perfectResults =
      { feed (enableCam State.ready) (perfectStream 34) with
        totalFrames := (feed (enableCam State.ready) (perfectStream 34)).totalFrames + 1 } :=
  ⟨(feed_perfect (perfectStream 34) (enableCam State.ready) rfl (perfectStream_new 34)
      (fun k hk _ => perfectStream_perfect 34 k hk)).1,
    repeated_frames_dilute.2.1 _ _ perfectResults
      (feed_perfect (perfectStream 34) (enableCam State.ready) rfl (perfectStream_new 34)
        (fun k hk _ => perfectStream_perfect 34 k hk)).1 rfl⟩


/-! ## The classification flags outside scoring -/

theorem predictWebcam_outside_scoring (s : State) (t : ℝ) (r : FaceLandmarkerResult)
    (h : (predictWebcam s t r).totalFrames ≤ 30 ∨ faceDetected r = false) :
    (predictWebcam s t r).eyeContact = s.eyeContact ∧
    (predictWebcam s t r).headPosture = s.headPosture ∧
    (predictWebcam s t r).eyeContactFrames = s.eyeContactFrames ∧
    (predictWebcam s t r).headPostureFrames = s.headPostureFrames := by
  by_cases hrun : s.webcamRunning = true
  · by_cases ht : t = s.lastVideoTime
    · rw [predictWebcam_repeated s t r hrun ht]
      simp
    · have ht2 : s.lastVideoTime ≠ t := fun h => ht h.symm
      by_cases hc : s.totalFrames < 30
      · rw [predictWebcam_calibrating s t r hrun ht2 hc]
        simp
      · have h30 : s.totalFrames + 1 > ADAPTIVE_FRAMES := by unfold ADAPTIVE_FRAMES; omega
        have htot := predictWebcam_totalFrames s t r hrun
        rcases h with h | h
        · omega
        · unfold predictWebcam
          simp only [hrun]
          simp [ht2]
          unfold faceDetected at h
          split
          · rename_i hfl
            rw [hfl] at h
            simp at h
          · simp
  · have hrun2 : s.webcamRunning = false := by simpa using hrun
    rw [predictWebcam_stopped s t r hrun2]
    simp

theorem step_flags_of_not_frame (s : State) (e : Event)
    (h : ∀ t r, e ≠ Event.frame t r) :
    (step s e).eyeContact = s.eyeContact ∧ (step s e).headPosture = s.headPosture := by
  cases e with
  | landmarkerCreated => exact ⟨rfl, rfl⟩
  | click =>
    simp only [step, enableCam]
    split
    · exact ⟨rfl, rfl⟩
    · split <;> exact ⟨rfl, rfl⟩
  | frame t r => exact absurd rfl (h t r)

theorem run_flags_false (events : List Event) :
    ∀ s : State, s.eyeContact = false → s.headPosture = false →
      (∀ (k : Nat) (t : ℝ) (r : FaceLandmarkerResult), events[k]? = some (Event.frame t r) →
        (run s (events.take (k + 1))).totalFrames ≤ 30 ∨ faceDetected r = false) →
      (run s events).eyeContact = false ∧ (run s events).headPosture = false := by
  induction events with
  | nil => intro s h1 h2 _; exact ⟨h1, h2⟩
  | cons e es ih =>
    intro s h1 h2 hall
    have hstep : (step s e).eyeContact = false ∧ (step s e).headPosture = false := by
      cases e with
      | landmarkerCreated => exact ⟨h1, h2⟩
      | click =>
        have := step_flags_of_not_frame s Event.click (by intro t r h; cases h)
        exact ⟨this.1.trans h1, this.2.trans h2⟩
      | frame t r =>
        have h0 := hall 0 t r (by simp)
        have := predictWebcam_outside_scoring s t r (by simpa [run, step] using h0)
        exact ⟨this.1.trans h1, this.2.1.trans h2⟩
    exact ih (step s e) hstep.1 hstep.2 (fun k t r hk => hall (k + 1) t r (by simpa using hk))

theorem run_totalFrames_le (events : List Event) :
    ∀ s : State, (run s events).totalFrames ≤ s.totalFrames + events.length := by
  induction events with
  | nil => intro s; exact Nat.le_refl _
  | cons e es ih =>
    intro s
    have hstep : (step s e).totalFrames ≤ s.totalFrames + 1 := by
      cases e with
      | landmarkerCreated => exact Nat.le_succ _
      | click =>
        simp only [step, enableCam]
        split
        · exact Nat.le_succ _
        · split
          · exact Nat.le_succ _
          · simp
      | frame t r =>
        by_cases hrun : s.webcamRunning = true
        · simp only [step]
          rw [predictWebcam_totalFrames s t r hrun]
        · have hrun2 : s.webcamRunning = false := by simpa using hrun
          simp only [step]
          rw [predictWebcam_stopped s t r hrun2]
          exact Nat.le_succ _
    have := ih (step s e)
    simp only [run, List.foldl_cons, List.length_cons] at this ⊢
    omega


theorem predictWebcam_faceLandmarker (s : State) (t : ℝ) (r : FaceLandmarkerResult) :
    (predictWebcam s t r).faceLandmarker = s.faceLandmarker := by
  by_cases h : s.webcamRunning = true
  · by_cases ht : s.lastVideoTime = t
    · simp [predictWebcam, h, ht]
    · rcases hfl : r.faceLandmarks with _ | ⟨_ | ⟨landmarks, rest⟩⟩
      · simp [predictWebcam, h, ht, hfl]
      · simp [predictWebcam, h, ht, hfl]
      · by_cases h30 : s.totalFrames + 1 > ADAPTIVE_FRAMES
        · rcases he : eyeContactExpr landmarks with _ | b
          · simp [predictWebcam, h, ht, hfl, h30, he]
          · simp [predictWebcam, h, ht, hfl, h30, he]
        · simp [predictWebcam, h, ht, hfl, h30]
  · have h2 : s.webcamRunning = false := by simpa using h
    rw [predictWebcam_stopped s t r h2]

theorem feed_faceLandmarker (frames : List (ℝ × FaceLandmarkerResult)) :
    ∀ s : State, (feed s frames).faceLandmarker = s.faceLandmarker := by
  induction frames with
  | nil => intro s; rfl
  | cons f fs ih =>
    intro s
    rw [feed_cons, ih, predictWebcam_faceLandmarker]

theorem run_session_start (frames : List (ℝ × FaceLandmarkerResult)) :
    run State.initial
      (Event.landmarkerCreated :: Event.click :: frames.map fun f => Event.frame f.1 f.2) =
    feed (enableCam State.ready) frames := by
  rw [← run_frames]
  rfl

theorem run_scoredSession :
    (run State.initial scoredSession).webcamRunning = true ∧
    (run State.initial scoredSession).faceLandmarker = true ∧
    (run State.initial scoredSession).totalFrames = 31 ∧
    (run State.initial scoredSession).eyeContact = true ∧
    (run State.initial scoredSession).headPosture = true := by
  obtain ⟨hR, hV, hT, _, _⟩ := enableCam_fields State.ready rfl rfl
  have h := feed_perfect (perfectStream 31) (enableCam State.ready) hR
    (by rw [hV]; exact perfectStream_new 31)
    (fun k hk _ => perfectStream_perfect 31 k hk)
  obtain ⟨h1, h2, _, _, _, h6⟩ := h
  rw [hT, perfectStream_length] at h2 h6
  have hne : perfectStream 31 ≠ [] := by
    intro h0
    have := perfectStream_length 31
    rw [h0] at this
    simp at this
  have hfl : (feed (enableCam State.ready) (perfectStream 31)).faceLandmarker = true := by
    rw [feed_faceLandmarker]
    rfl
  unfold scoredSession
  rw [run_session_start]
  exact ⟨h1, hfl, h2, (h6 hne (by decide)).1, (h6 hne (by decide)).2⟩

theorem run_restarted :
    (run State.initial (scoredSession ++ [Event.click, Event.click])).webcamRunning = true ∧
    (run State.initial (scoredSession ++ [Event.click, Event.click])).totalFrames = 0 ∧
    (run State.initial (scoredSession ++ [Event.click, Event.click])).eyeContact = true ∧
    (run State.initial (scoredSession ++ [Event.click, Event.click])).headPosture = true := by
  obtain ⟨h1, h2, _, h4, h5⟩ := run_scoredSession
  have hrun : run State.initial (scoredSession ++ [Event.click, Event.click]) =
      enableCam (enableCam (run State.initial scoredSession)) := by
    simp [run, List.foldl_append, step]
  rw [hrun]
  simp [enableCam, h1, h2, h4, h5]

/-- C6, as stated, fails.  After the session `scoredSession` (31 perfect frames) both flags
are `true`; a next callback in which no face is detected leaves both `true`.  And after the
session is stopped and started again, the first callback of the new session
(`totalFrames = 1`, Calibrating) leaves both `true` as well. -/
theorem flags_forced_false_counterexample :
    (faceDetected noFaceResults = false ∧
      (run State.initial scoredSession).webcamRunning = true ∧
      (predictWebcam (run State.initial scoredSession) 31 noFaceResults).eyeContact = true ∧
      (predictWebcam (run State.initial scoredSession) 31 noFaceResults).headPosture
        = true) ∧
    ((run State.initial (scoredSession ++ [Event.click, Event.click])).webcamRunning = true ∧
      (predictWebcam (run State.initial (scoredSession ++ [Event.click, Event.click])) 40
        perfectResults).totalFrames = 1 ∧
      (predictWebcam (run State.initial (scoredSession ++ [Event.click, Event.click])) 40
        perfectResults).eyeContact = true ∧
      (predictWebcam (run State.initial (scoredSession ++ [Event.click, Event.click])) 40
        perfectResults).headPosture = true) := by
  obtain ⟨h1, _, _, h4, h5⟩ := run_scoredSession
  obtain ⟨r1, r2, r3, r4⟩ := run_restarted
  constructor
  · have h := predictWebcam_outside_scoring (run State.initial scoredSession) 31
      noFaceResults (Or.inr rfl)
    exact ⟨rfl, h1, h.1.trans h4, h.2.1.trans h5⟩
  · have ht := predictWebcam_totalFrames
      (run State.initial (scoredSession ++ [Event.click, Event.click])) 40 perfectResults r1
    rw [r2] at ht
    have h := predictWebcam_outside_scoring
      (run State.initial (scoredSession ++ [Event.click, Event.click])) 40 perfectResults
      (Or.inl (by rw [ht]; decide))
    exact ⟨r1, ht, h.1.trans r3, h.2.1.trans r4⟩

/-- C6, amended: a `predictWebcam` callback that is in the Calibrating state
(`totalFrames ≤ 30` after it) or in which no face is detected leaves the flags `eyeContact`
and `headPosture` as they were before it and increments neither `eyeContactFrames` nor
`headPostureFrames`.  Hence, counted from page load, both flags are `false` as long as every
callback so far was Calibrating or without a face. -/
theorem flags_unchanged_outside_scoring :
    (∀ (s : State) (t : ℝ) (r : FaceLandmarkerResult),
      ((predictWebcam s t r).totalFrames ≤ 30 ∨ faceDetected r = false) →
      (predictWebcam s t r).eyeContact = s.eyeContact ∧
      (predictWebcam s t r).headPosture = s.headPosture ∧
      (predictWebcam s t r).eyeContactFrames = s.eyeContactFrames ∧
      (predictWebcam s t r).headPostureFrames = s.headPostureFrames) ∧
    (∀ events : List Event,
      (∀ (k : Nat) (t : ℝ) (r : FaceLandmarkerResult),
        events[k]? = some (Event.frame t r) →
        (run State.initial (events.take (k + 1))).totalFrames ≤ 30 ∨
          faceDetected r = false) →
      (run State.initial events).eyeContact = false ∧
      (run State.initial events).headPosture = false) :=
  ⟨predictWebcam_outside_scoring,
    fun events h => run_flags_false events State.initial rfl rfl h⟩

theorem flags_unchanged_outside_scoring_witness :
    ((predictWebcam (run State.initial scoredSession) 31 noFaceResults).eyeContact =
        (run State.initial scoredSession).eyeContact ∧
      (predictWebcam (run State.initial scoredSession) 31 noFaceResults).headPosture =
        (run State.initial scoredSession).headPosture ∧
      (predictWebcam (run State.initial scoredSession) 31 noFaceResults).eyeContactFrames =
        (run State.initial scoredSession).eyeContactFrames ∧
      (predictWebcam (run State.initial scoredSession) 31 noFaceResults).headPostureFrames =
        (run State.initial scoredSession).headPostureFrames) ∧
    ((run State.initial shortSession).eyeContact = false ∧
      (run State.initial shortSession).headPosture = false) :=
  ⟨flags_unchanged_outside_scoring.1 (run State.initial scoredSession) 31 noFaceResults
      (Or.inr rfl),
    flags_unchanged_outside_scoring.2 shortSession (fun k t r _ => Or.inl (by
      have h := run_totalFrames_le (shortSession.take (k + 1)) State.initial
      have h0 : State.initial.totalFrames = 0 := rfl
      have hlen : (shortSession.take (k + 1)).length ≤ 22 := by
        rw [List.length_take]
        have : shortSession.length = 22 := by simp [shortSession, perfectStream_length]
        omega
      omega))⟩

end BodyLanguageScoring
